import Mathlib

/-!
Verification development for the conversational add/edit core of the
guide/templates Telegram bot (`bot.py`).

The Python program keeps one mutable dict per user (`context.user_data`);
handler functions mutate it, read and write two JSON-backed collections
(`guide.json` / `templates.json`) and return the next conversation state.
Here every handler is embedded as a pure function from the session
(`UserData`), the store (`Store`) and the incoming message to a
`HandlerOutput` holding the new session, the new store, the next
conversation state and the replies sent to the chat.

Modelling conventions:
* dict keys that may be absent are `Option` fields; for the list-valued keys
  (`photos`, `documents`, `pending_photos`) absence and `[]` are
  observationally identical in the source (every read uses `.get` with a
  falsy default or follows an explicit initialisation), so they are plain
  lists here;
* reply texts are abstracted into the `Reply` enumeration (one constructor
  per distinct `reply_text` call site content);
* `update.message` is abstracted into `Msg`: a text message, a photo
  message (list of size variants, largest last, optional `media_group_id`
  and caption) or a document message;
* scheduler jobs are booleans (`timeout_task` pending or not); firing the
  album-debounce job is the `Event.timer` event of the step relation;
* `bot.py` defines `receive_answer` twice (lines 815 and 1195) with
  identical behaviour; the second definition shadows the first and is the
  one embedded here;
* file persistence and git synchronisation are collapsed into the pure
  `Store` record: `save_data` overwrites the selected collection.
-/

/-- One knowledge-base item (an element of `guide.json`'s `questions` array
or `templates.json`'s `templates` array).  In the JSON the `photos` and
`documents` keys are present only when non-empty; an absent key is
represented by `[]`. -/
structure Entry where
  id : Nat
  question : String
  answer : String
  photos : List String
  documents : List String
deriving Repr, DecidableEq

/-- The two persisted collections: `load_data('guide')` reads
`guide.json`'s `questions`, `load_data('template')` reads
`templates.json`'s `templates`. -/
structure Store where
  guide : List Entry
  templates : List Entry
deriving Repr, DecidableEq

/-- `load_data(data_type)`: selects the collection for a data type
(`'guide'` → `questions`, anything else → `templates`, mirroring the
`if data_type == 'guide'` selections in the source). -/
def load_data (data_type : String) (s : Store) : List Entry :=
  if data_type = "guide" then s.guide else s.templates

/-- `save_data(data_type, data)`: whole-collection overwrite (the git
synchronisation side effect has no bearing on the store contents). -/
def save_data (data_type : String) (d : List Entry) (s : Store) : Store :=
  if data_type = "guide" then { s with guide := d } else { s with templates := d }

/-- `max([q["id"] for q in data[key]], default=0)` from `save_new_point`. -/
def maxId (l : List Entry) : Nat :=
  (l.map (fun q => q.id)).foldl max 0

/-- The per-user session dict `context.user_data`.  `Option` encodes a
possibly-absent key; `point_saved` is `Option Bool` because the key is
absent until `add_point`/`add_template` store `False` in it. -/
structure UserData where
  conversation_active : Bool := false
  conversation_state : Option String := none
  data_type : Option String := none
  new_question : Option String := none
  answer : Option String := none
  photos : List String := []
  documents : List String := []
  pending_photos : List String := []
  media_group_id : Option Nat := none
  point_saved : Option Bool := none
  timeout_task : Bool := false
  loading_message_id : Bool := false
  edit_field : Option String := none
  edit_question_id : Option Nat := none
deriving Repr, DecidableEq

/-- `context.user_data.clear()` followed by storing a `conversation_state`
marker and `conversation_active = False` — the reset idiom used by every
terminal branch of the handlers. -/
def clearedUD (state : String) : UserData :=
  { conversation_state := some state, conversation_active := false }

/-- An incoming `update.message`, restricted to the kinds the add/edit
conversation states register handlers for: text, photo (with its list of
size variants, largest last, as in `update.message.photo`) and document. -/
inductive Msg where
  | text (s : String)
  | photo (sizes : List String) (mediaGroupId : Option Nat) (caption : Option String)
  | doc (fileId : String) (mime : String) (size : Nat) (caption : Option String)
deriving Repr, DecidableEq

/-- `update.message.text` (`none` for photo/document messages). -/
def msgText : Msg → Option String
  | Msg.text s => some s
  | _ => none

/-- Outbound replies, one constructor per distinct `reply_text` content in
the embedded handlers (the Russian texts are kept as documentation):
* `restartFlow`: "❌ Пожалуйста, начните добавление ... заново."
* `invalidDataType`: "❌ Ошибка: Неверный тип данных. Начните заново."
* `pointSaved q`: "➕ Пункт/Шаблон добавлен!\nВопрос: q"
* `answerSaved`: "✅ Ответ сохранён. ..."
* `photoAdded n` / `photosAdded n` / `docAdded n`: the "✅ ... добавлено (n)" confirmations
* `docBadType`: "❌ Поддерживаются только файлы .doc, .docx, .pdf, .xls, .xlsx!"
* `docTooBig`: "❌ Файл слишком большой! Максимальный размер — 20 МБ."
* `capExceeded`: "❌ Максимум 10 файлов (фото или документы) на пункт! ..."
* `loading`: "⏳ Загрузка..."
* `sendPhotoOrDoc`: "❌ Пожалуйста, отправьте фото или документ ...!"
* `noQuestion`: "❌ Вопрос не задан! Начните добавление заново."
* `itemNotFound`: "❌ Пункт не найден!"
* `valueEdited`: "✅ ... успешно изменён!"
* `invalidInput`: "❌ Пожалуйста, отправьте текст или фото/альбом ...!"
* `errorGeneric`: the generic error-handler apology. -/
inductive Reply where
  | restartFlow
  | invalidDataType
  | pointSaved (question : String)
  | answerSaved
  | photoAdded (n : Nat)
  | photosAdded (n : Nat)
  | docAdded (n : Nat)
  | docBadType
  | docTooBig
  | capExceeded
  | loading
  | sendPhotoOrDoc
  | noQuestion
  | itemNotFound
  | valueEdited
  | invalidInput
  | errorGeneric
deriving Repr, DecidableEq

/-- The `ConversationHandler` states the embedded handlers move between
(the integer constants `GUIDE_ANSWER` … `TEMPLATE_EDIT_VALUE` of the
source) plus `END` (`ConversationHandler.END`). -/
inductive ConvState where
  | GUIDE_ANSWER
  | GUIDE_ANSWER_PHOTOS
  | TEMPLATE_ANSWER
  | TEMPLATE_ANSWER_PHOTOS
  | GUIDE_EDIT_VALUE
  | TEMPLATE_EDIT_VALUE
  | END
deriving Repr, DecidableEq

/-- The result of one handler invocation: new session, new store, the
state returned to the `ConversationHandler`, and the replies sent. -/
structure HandlerOutput where
  ud : UserData
  store : Store
  next : ConvState
  replies : List Reply
deriving Repr, DecidableEq

/-- `MAX_MEDIA_PER_ALBUM = 10`. -/
def MAX_MEDIA_PER_ALBUM : Nat := 10

/-- The allowed document MIME types (`receive_answer_files`,
`receive_answer`, `receive_edit_value` all use this same literal list). -/
def allowedMimes : List String :=
  [ "application/msword"
  , "application/vnd.openxmlformats-officedocument.wordprocessingml.document"
  , "application/pdf"
  , "application/vnd.ms-excel"
  , "application/vnd.openxmlformats-officedocument.spreadsheetml.sheet" ]

/-- The 20 MB document size ceiling (`doc.file_size > 20 * 1024 * 1024`). -/
def maxDocSize : Nat := 20 * 1024 * 1024

/-- `list(dict.fromkeys(xs))`: keep the first occurrence of each element,
in arrival order.  `seen` accumulates the elements already emitted. -/
def pyDedupAux (seen : List String) : List String → List String
  | [] => []
  | x :: xs => if x ∈ seen then pyDedupAux seen xs else x :: pyDedupAux (x :: seen) xs

/-- `list(dict.fromkeys(xs))` (insertion-ordered deduplication). -/
def pyDedup (xs : List String) : List String :=
  pyDedupAux [] xs

/-- The pending-album flush idiom repeated at lines 850-854, 950-954,
1018-1022, 1097-1101 and 1228-1232 of `bot.py`:

    if context.user_data.get('pending_photos'):
        unique_photos = list(dict.fromkeys(context.user_data['pending_photos']))
        context.user_data['photos'].extend([pid for pid in unique_photos
                                            if pid not in context.user_data['photos']])
        context.user_data['pending_photos'] = []
-/
def flushPendingPhotos (ud : UserData) : UserData :=
  if ud.pending_photos ≠ [] then
    let unique := pyDedup ud.pending_photos
    { ud with
      photos := ud.photos ++ unique.filter (fun pid => pid ∉ ud.photos)
      pending_photos := [] }
  else ud

/-- `save_new_point(update, context)` (lines 966-992): loads the target
collection, computes `new_id = max(ids, default=0) + 1`, builds the new
entry from the session draft and appends it.  `context.user_data['new_question']`
is a direct (non-defaulted) dict access, so an absent key raises; that
failure mode is the `none` result. -/
def save_new_point (ud : UserData) (store : Store) : Option (Store × Entry) :=
  match ud.new_question with
  | none => none
  | some q =>
    let dt := ud.data_type.getD "guide"
    let data := load_data dt store
    let new_id := maxId data + 1
    let new_point : Entry :=
      { id := new_id
        question := q
        answer := ud.answer.getD ""
        photos := ud.photos
        documents := ud.documents }
    some (save_data dt (data ++ [new_point]) store, new_point)

/-- Caption adoption: `if update.message.caption and not context.user_data.get('answer')`
(Python truthiness: a present non-empty caption, and an absent or empty
answer). -/
def adoptCaption (caption : Option String) (ud : UserData) : UserData :=
  if caption.getD "" ≠ "" ∧ ud.answer.getD "" = "" then { ud with answer := caption } else ud

/-- `f'{data_type.upper()}_FILES_SAVED'` etc.; `data_type` is always
`'guide'` or `'template'` on the paths that build these markers. -/
def upperDT (dt : String) : String :=
  if dt = "guide" then "GUIDE" else "TEMPLATE"

/-- `receive_answer(update, context)` — the second (shadowing) definition,
lines 1195-1302.  Registered for every text message in the `*_ANSWER` and
`*_ANSWER_PHOTOS` states and for photo/document messages in the `*_ANSWER`
states.  Guard: inactive dialog or missing draft question → reset; then
"Готово" commits via `save_new_point` after flushing the pending album,
an album photo goes to `pending_photos` (starting the 7 s debounce job on
the first one), a single photo replaces `photos`, a valid unseen document
is appended to `documents`, and any other text becomes the draft answer. -/
def receive_answer (ud : UserData) (store : Store) (msg : Msg) : HandlerOutput :=
  if ud.conversation_active = false ∨ ud.new_question = none then
    { ud := clearedUD "INVALID_ANSWER", store := store, next := ConvState.END
      replies := [Reply.restartFlow] }
  else
    let dt := ud.data_type.getD "guide"
    if dt ≠ "guide" ∧ dt ≠ "template" then
      { ud := clearedUD "INVALID_DATA_TYPE", store := store, next := ConvState.END
        replies := [Reply.invalidDataType] }
    else
      -- lines 1219-1224 initialise the 'photos'/'documents'/'pending_photos'
      -- keys when absent; with list-valued fields this is the identity.
      let nextSt := if dt = "guide" then ConvState.GUIDE_ANSWER_PHOTOS
                    else ConvState.TEMPLATE_ANSWER_PHOTOS
      match msg with
      | Msg.text s =>
        if s = "Готово" then
          let ud1 := flushPendingPhotos ud
          match save_new_point ud1 store with
          | some (store1, np) =>
            { ud := clearedUD (upperDT dt ++ "_FILES_SAVED"), store := store1
              next := ConvState.END, replies := [Reply.pointSaved np.question] }
          | none =>
            -- KeyError on 'new_question'; unreachable under the guard above,
            -- would be caught by the dispatcher-level error_handler.
            { ud := clearedUD "ERROR", store := store, next := ConvState.END
              replies := [Reply.errorGeneric] }
        else
          { ud := { ud with answer := some s }, store := store, next := nextSt
            replies := [Reply.answerSaved] }
      | Msg.photo sizes mgid caption =>
        match mgid with
        | some g =>
          let ud1 := { ud with
                       media_group_id := some g
                       pending_photos := ud.pending_photos ++ [sizes.getLastD ""] }
          if ud1.pending_photos.length = 1 then
            let ud2 := { ud1 with loading_message_id := true }
            let ud3 := if ud2.timeout_task = false then { ud2 with timeout_task := true } else ud2
            { ud := ud3, store := store, next := nextSt, replies := [Reply.loading] }
          else
            { ud := ud1, store := store, next := nextSt, replies := [] }
        | none =>
          let ud1 := { ud with photos := [sizes.getLastD ""] }
          let ud2 := adoptCaption caption ud1
          { ud := ud2, store := store, next := nextSt
            replies := [Reply.photoAdded ud1.photos.length] }
      | Msg.doc fileId mime size caption =>
        if mime ∉ allowedMimes then
          { ud := ud, store := store, next := nextSt, replies := [Reply.docBadType] }
        else if size > maxDocSize then
          { ud := ud, store := store, next := nextSt, replies := [Reply.docTooBig] }
        else if fileId ∉ ud.documents then
          let ud1 := { ud with documents := ud.documents ++ [fileId] }
          let ud2 := adoptCaption caption ud1
          { ud := ud2, store := store, next := nextSt
            replies := [Reply.docAdded ud1.documents.length] }
        else
          { ud := ud, store := store, next := nextSt, replies := [] }

/-- `receive_answer_files(update, context)` (lines 996-1132).  Registered
for photo/document messages in the `*_ANSWER_PHOTOS` states.  Performs no
`conversation_active` check.  First the album cap: when
`len(photos) + len(documents) >= MAX_MEDIA_PER_ALBUM` the message is
rejected and any pending album photos are flushed into the draft.  A photo
is deduplicated into `pending_photos`; with a `media_group_id` the 5 s
debounce job is (re)scheduled, otherwise the pending list is flushed
immediately.  Documents are validated (MIME / 20 MB) and deduplicated into
`documents`.  The "Готово" sentinel commits via `save_new_point` (with a
missing-question reset), any other text is rejected in place. -/
def receive_answer_files (ud : UserData) (store : Store) (msg : Msg) : HandlerOutput :=
  let dt := ud.data_type.getD "guide"
  let nextSt := if dt = "guide" then ConvState.GUIDE_ANSWER_PHOTOS
                else ConvState.TEMPLATE_ANSWER_PHOTOS
  -- lines 1000-1007 initialise the list-valued keys: identity here.
  let total_files := ud.photos.length + ud.documents.length
  if total_files ≥ MAX_MEDIA_PER_ALBUM then
    { ud := flushPendingPhotos ud, store := store, next := nextSt
      replies := [Reply.capExceeded] }
  else
    match msg with
    | Msg.photo sizes mgid caption =>
      let new_photo := sizes.getLastD ""
      let ud1 := if new_photo ∉ ud.pending_photos
                 then { ud with pending_photos := ud.pending_photos ++ [new_photo] }
                 else ud
      let ud2 := adoptCaption caption ud1
      match mgid with
      | some _ =>
        -- cancel the previous debounce job if any, schedule a fresh one
        { ud := { ud2 with timeout_task := true }, store := store, next := nextSt
          replies := [] }
      | none =>
        let unique := pyDedup ud2.pending_photos
        let ud3 := { ud2 with
                     photos := ud2.photos ++ unique.filter (fun pid => pid ∉ ud2.photos)
                     pending_photos := [] }
        { ud := ud3, store := store, next := nextSt
          replies := [Reply.photosAdded ud3.photos.length] }
    | Msg.doc fileId mime size caption =>
      if mime ∉ allowedMimes then
        { ud := ud, store := store, next := nextSt, replies := [Reply.docBadType] }
      else if size > maxDocSize then
        { ud := ud, store := store, next := nextSt, replies := [Reply.docTooBig] }
      else if fileId ∉ ud.documents then
        let ud1 := { ud with documents := ud.documents ++ [fileId] }
        let ud2 := adoptCaption caption ud1
        { ud := ud2, store := store, next := nextSt
          replies := [Reply.docAdded ud1.documents.length] }
      else
        { ud := ud, store := store, next := nextSt, replies := [] }
    | Msg.text s =>
      if s = "Готово" then
        if ud.new_question.getD "" = "" then
          { ud := clearedUD "NO_QUESTION", store := store, next := ConvState.END
            replies := [Reply.noQuestion] }
        else
          let ud1 := flushPendingPhotos ud
          match save_new_point ud1 store with
          | some (store1, np) =>
            { ud := clearedUD (upperDT dt ++ "_FILES_SAVED"), store := store1
              next := ConvState.END, replies := [Reply.pointSaved np.question] }
          | none =>
            { ud := clearedUD "ERROR", store := store, next := ConvState.END
              replies := [Reply.errorGeneric] }
      else
        { ud := ud, store := store, next := nextSt, replies := [Reply.sendPhotoOrDoc] }

/-- `check_album_timeout(context)` (lines 936-964): the album-debounce job.
Deletes the loading indicator (an external chat effect), flushes
`pending_photos` into `photos` with first-occurrence deduplication, and
resets `media_group_id` and `timeout_task`.  It never touches the store:
no commit happens here. -/
def check_album_timeout (ud : UserData) : UserData × List Reply :=
  if ud.pending_photos ≠ [] then
    let unique := pyDedup ud.pending_photos
    let photos1 := ud.photos ++ unique.filter (fun pid => pid ∉ ud.photos)
    ({ ud with
       photos := photos1
       pending_photos := []
       media_group_id := none
       timeout_task := false },
     [Reply.photosAdded photos1.length])
  else
    ({ ud with media_group_id := none, timeout_task := false }, [])

/-- `handle_invalid_input` (lines 1762-1773): clears the session and ends
the conversation. -/
def handle_invalid_input (ud : UserData) (store : Store) (msg : Msg) : HandlerOutput :=
  let _ := (ud, msg)
  { ud := clearedUD "INVALID_INPUT", store := store, next := ConvState.END
    replies := [Reply.invalidInput] }

/-- Replace the first entry whose `id` matches, mirroring the in-place
mutation of the `item` found by `next((q for q in data[key] if q["id"] == question_id), None)`
inside `receive_edit_value`. -/
def updateFirstById (qid : Nat) (f : Entry → Entry) : List Entry → List Entry
  | [] => []
  | q :: qs => if q.id = qid then f q :: qs else q :: updateFirstById qid f qs

/-- `receive_edit_value(update, context)` (lines 1677-1758).  Looks up the
entry selected for editing, then per `edit_field`: replaces the question or
answer with the message text (the source stores `update.message.text`,
which is `None` for a non-text message — modelled with `""`); for the
photo field, a photo message replaces `photos` with *all* size variants of
that one message and resets `documents` to `[]`, a valid document replaces
`documents` with that single file id and resets `photos` to `[]`, and an
invalid document is rejected in place without saving.  Any path that falls
through the field dispatch still saves the (unmodified) collection.  A
missing `edit_field`/`edit_question_id` key raises and lands in the
`except` reset.  Note: under the dispatch registered in `main`, the
`*_EDIT_VALUE` states route only text and photo messages here — a
document message matches the invalid-input filter and goes to
`handle_invalid_input` instead, so the document branches of this function
are unreachable dead code; they are embedded for completeness. -/
def receive_edit_value (ud : UserData) (store : Store) (msg : Msg) : HandlerOutput :=
  let dt := ud.data_type.getD "guide"
  let editValueSt := if dt = "guide" then ConvState.GUIDE_EDIT_VALUE
                     else ConvState.TEMPLATE_EDIT_VALUE
  match ud.edit_field, ud.edit_question_id with
  | some ef, some qid =>
    let data := load_data dt store
    match data.find? (fun q => q.id == qid) with
    | none =>
      { ud := clearedUD "ERROR", store := store, next := ConvState.END
        replies := [Reply.itemNotFound] }
    | some _ =>
      let commitEdit : List Entry → HandlerOutput := fun d =>
        { ud := clearedUD (upperDT dt ++ "_EDITED")
          store := save_data dt d store
          next := ConvState.END
          replies := [Reply.valueEdited] }
      if ef = "edit_" ++ dt ++ "_field_question" then
        commitEdit (updateFirstById qid
          (fun it => { it with question := (msgText msg).getD "" }) data)
      else if ef = "edit_" ++ dt ++ "_field_answer" then
        commitEdit (updateFirstById qid
          (fun it => { it with answer := (msgText msg).getD "" }) data)
      else if ef = "edit_" ++ dt ++ "_field_photo" then
        match msg with
        | Msg.photo sizes _ _ =>
          if sizes ≠ [] then
            commitEdit (updateFirstById qid
              (fun it => { it with photos := sizes, documents := [] }) data)
          else
            commitEdit data
        | Msg.doc fileId mime size _ =>
          if mime ∉ allowedMimes then
            { ud := ud, store := store, next := editValueSt
              replies := [Reply.docBadType] }
          else if size > maxDocSize then
            { ud := ud, store := store, next := editValueSt
              replies := [Reply.docTooBig] }
          else
            commitEdit (updateFirstById qid
              (fun it => { it with photos := [], documents := [fileId] }) data)
        | Msg.text _ => commitEdit data
      else
        commitEdit data
  | _, _ =>
    { ud := clearedUD "ERROR", store := store, next := ConvState.END
      replies := [Reply.errorGeneric] }

/-- A deliverable event of the add-flow dispatcher: an incoming message or
the firing of the album-debounce job. -/
inductive Event where
  | msg (m : Msg)
  | timer
deriving Repr, DecidableEq

/-- The dispatcher-level state: the `ConversationHandler`'s current state,
the per-user session dict and the persisted store. -/
structure SysState where
  conv : ConvState
  ud : UserData
  store : Store
deriving Repr, DecidableEq

/-- One dispatch step, following the handler registration in `main`
(lines 1878-1968): in the `*_ANSWER` states every message kind goes to
`receive_answer`; in the `*_ANSWER_PHOTOS` states text goes to
`receive_answer` and photo/document messages go to `receive_answer_files`;
in the `*_EDIT_VALUE` states text and photo messages go to
`receive_edit_value` and documents to `handle_invalid_input`; after `END`
no conversation handler receives the update.  The debounce job runs
`check_album_timeout` only while it is scheduled. -/
def stepSys (s : SysState) (e : Event) : SysState :=
  match e with
  | Event.timer =>
    if s.ud.timeout_task then
      { s with ud := (check_album_timeout s.ud).1 }
    else s
  | Event.msg m =>
    match s.conv with
    | ConvState.GUIDE_ANSWER | ConvState.TEMPLATE_ANSWER =>
      let o := receive_answer s.ud s.store m
      { conv := o.next, ud := o.ud, store := o.store }
    | ConvState.GUIDE_ANSWER_PHOTOS | ConvState.TEMPLATE_ANSWER_PHOTOS =>
      match m with
      | Msg.text _ =>
        let o := receive_answer s.ud s.store m
        { conv := o.next, ud := o.ud, store := o.store }
      | _ =>
        let o := receive_answer_files s.ud s.store m
        { conv := o.next, ud := o.ud, store := o.store }
    | ConvState.GUIDE_EDIT_VALUE | ConvState.TEMPLATE_EDIT_VALUE =>
      match m with
      | Msg.doc _ _ _ _ =>
        let o := handle_invalid_input s.ud s.store m
        { conv := o.next, ud := o.ud, store := o.store }
      | _ =>
        let o := receive_edit_value s.ud s.store m
        { conv := o.next, ud := o.ud, store := o.store }
    | ConvState.END => s

/-- Run a sequence of events through the dispatcher. -/
def runSys (s : SysState) (es : List Event) : SysState :=
  es.foldl stepSys s

/-- The "Готово" sentinel as a dispatcher event. -/
def sentinelEvent : Event := Event.msg (Msg.text "Готово")

/-- Decides whether an event is the sentinel. -/
def isSentinelEvent (e : Event) : Bool :=
  e == sentinelEvent

/-- `ITEMS_PER_PAGE = 15` (`display_guide_page` / `display_template_page`). -/
def ITEMS_PER_PAGE : Nat := 15

/-- What one rendered page exposes: the clamped page number, the visible
slice and the two navigation affordances. -/
structure PageRender where
  page : Nat
  slice : List Entry
  has_prev : Bool
  has_next : Bool
deriving Repr, DecidableEq

/-- The pagination core of `display_guide_page` (lines 306-335):

    total_pages = (total_items + ITEMS_PER_PAGE - 1) // ITEMS_PER_PAGE
    page = max(0, min(page, total_pages - 1))
    start_idx = page * ITEMS_PER_PAGE
    end_idx = min(start_idx + ITEMS_PER_PAGE, total_items)
    items = data["questions"][start_idx:end_idx]

with `has_prev` = "⬅️ Назад shown" (`page > 0`) and `has_next` =
"Вперёд ➡️ shown" (`page < total_pages - 1`, evaluated over the integers
exactly as Python does).  The page size is the `ps` parameter; the source
instantiates it with `ITEMS_PER_PAGE`. -/
def display_guide_page_core (ps : Nat) (questions : List Entry) (page : Int) : PageRender :=
  let total_items := questions.length
  let total_pages := (total_items + ps - 1) / ps
  let clamped : Int := max 0 (min page ((total_pages : Int) - 1))
  let p : Nat := clamped.toNat
  let start_idx := p * ps
  let end_idx := min (start_idx + ps) total_items
  { page := p
    slice := (questions.drop start_idx).take (end_idx - start_idx)
    has_prev := decide (0 < p)
    has_next := decide ((p : Int) < (total_pages : Int) - 1) }

/-- The pagination core of `display_template_page` (lines 376-410), which
repeats the same computation over `data["templates"]`. -/
def display_template_page_core (ps : Nat) (templates : List Entry) (page : Int) : PageRender :=
  let total_items := templates.length
  let total_pages := (total_items + ps - 1) / ps
  let clamped : Int := max 0 (min page ((total_pages : Int) - 1))
  let p : Nat := clamped.toNat
  let start_idx := p * ps
  let end_idx := min (start_idx + ps) total_items
  { page := p
    slice := (templates.drop start_idx).take (end_idx - start_idx)
    has_prev := decide (0 < p)
    has_next := decide ((p : Int) < (total_pages : Int) - 1) }

/-- The Entry data-model invariant stated in the specification: a committed
entry must have a non-empty answer, at least one photo, or at least one
document. -/
def entryInvariant (e : Entry) : Prop :=
  e.answer ≠ "" ∨ e.photos ≠ [] ∨ e.documents ≠ []

instance (e : Entry) : Decidable (entryInvariant e) := by
  unfold entryInvariant; infer_instance

theorem mem_pyDedupAux (seen l : List String) (x : String) :
    x ∈ pyDedupAux seen l ↔ x ∈ l ∧ x ∉ seen := by
  induction l generalizing seen with
  | nil => simp [pyDedupAux]
  | cons a as ih =>
    by_cases ha : a ∈ seen
    · rw [pyDedupAux, if_pos ha, ih]
      constructor
      · rintro ⟨hx, hns⟩
        exact ⟨List.mem_cons_of_mem _ hx, hns⟩
      · rintro ⟨hx, hns⟩
        rcases List.mem_cons.mp hx with h | h
        · exact absurd (h ▸ ha) hns
        · exact ⟨h, hns⟩
    · rw [pyDedupAux, if_neg ha]
      by_cases hxa : x = a
      · subst hxa
        simp [ha]
      · simp only [List.mem_cons, hxa, false_or, ih]

theorem nodup_pyDedupAux (seen l : List String) : (pyDedupAux seen l).Nodup := by
  induction l generalizing seen with
  | nil => simp [pyDedupAux]
  | cons a as ih =>
    by_cases ha : a ∈ seen
    · rw [pyDedupAux, if_pos ha]; exact ih seen
    · rw [pyDedupAux, if_neg ha, List.nodup_cons]
      refine ⟨fun hmem => ?_, ih (a :: seen)⟩
      exact ((mem_pyDedupAux _ _ _).mp hmem).2 (List.mem_cons_self a seen)

theorem pairwise_indexOf_pyDedupAux (seen l : List String) :
    (pyDedupAux seen l).Pairwise (fun x y => l.indexOf x < l.indexOf y) := by
  induction l generalizing seen with
  | nil => simp [pyDedupAux]
  | cons a as ih =>
    by_cases ha : a ∈ seen
    · rw [pyDedupAux, if_pos ha]
      refine (ih seen).imp_of_mem ?_
      intro x y hx hy hlt
      have hxa : x ≠ a := fun h =>
        ((mem_pyDedupAux _ _ _).mp hx).2 (h ▸ ha)
      have hya : y ≠ a := fun h =>
        ((mem_pyDedupAux _ _ _).mp hy).2 (h ▸ ha)
      rw [List.indexOf_cons_ne _ (Ne.symm hxa), List.indexOf_cons_ne _ (Ne.symm hya)]
      exact Nat.succ_lt_succ hlt
    · rw [pyDedupAux, if_neg ha, List.pairwise_cons]
      constructor
      · intro y hy
        have hya : y ≠ a := fun h =>
          ((mem_pyDedupAux _ _ _).mp hy).2 (h ▸ List.mem_cons_self a seen)
        rw [List.indexOf_cons_self, List.indexOf_cons_ne _ (Ne.symm hya)]
        exact Nat.succ_pos _
      · refine (ih (a :: seen)).imp_of_mem ?_
        intro x y hx hy hlt
        have hxa : x ≠ a := fun h =>
          ((mem_pyDedupAux _ _ _).mp hx).2 (h ▸ List.mem_cons_self a seen)
        have hya : y ≠ a := fun h =>
          ((mem_pyDedupAux _ _ _).mp hy).2 (h ▸ List.mem_cons_self a seen)
        rw [List.indexOf_cons_ne _ (Ne.symm hxa), List.indexOf_cons_ne _ (Ne.symm hya)]
        exact Nat.succ_lt_succ hlt

theorem mem_pyDedup (l : List String) (x : String) : x ∈ pyDedup l ↔ x ∈ l := by
  rw [pyDedup, mem_pyDedupAux]
  simp

theorem nodup_pyDedup (l : List String) : (pyDedup l).Nodup :=
  nodup_pyDedupAux [] l

theorem pairwise_indexOf_pyDedup (l : List String) :
    (pyDedup l).Pairwise (fun x y => l.indexOf x < l.indexOf y) :=
  pairwise_indexOf_pyDedupAux [] l

theorem check_album_timeout_photos_eq (ud : UserData) (hpend : ud.pending_photos ≠ []) :
    (check_album_timeout ud).1.photos
      = ud.photos ++ (pyDedup ud.pending_photos).filter (fun pid => pid ∉ ud.photos) := by
  rw [check_album_timeout, if_pos hpend]

theorem check_album_timeout_photos_eq_empty (ud : UserData) (hpend : ud.pending_photos = []) :
    (check_album_timeout ud).1.photos = ud.photos := by
  rw [check_album_timeout, if_neg (by simp [hpend])]

/-- **C9.** Album deduplication: after the debounce flush
(`check_album_timeout`, the same `list(dict.fromkeys(...))` + membership
filter used on every flush site), a reference delivered several times
within one burst occurs exactly once in the final `photos` list; the new
references are appended after the previously flushed ones, are pairwise
ordered by the position of their *first* arrival in `pending_photos`, and
nothing else is added or lost. -/
theorem c9_album_dedup_first_occurrence (ud : UserData) (hnd : ud.photos.Nodup) :
    (check_album_timeout ud).1.photos.Nodup
    ∧ (∀ r, r ∈ (check_album_timeout ud).1.photos ↔ r ∈ ud.photos ∨ r ∈ ud.pending_photos)
    ∧ (∀ r, r ∈ ud.pending_photos → ((check_album_timeout ud).1.photos).count r = 1)
    ∧ ∃ tail, (check_album_timeout ud).1.photos = ud.photos ++ tail
        ∧ tail.Pairwise (fun x y =>
            ud.pending_photos.indexOf x < ud.pending_photos.indexOf y) := by
  by_cases hpend : ud.pending_photos = []
  · rw [check_album_timeout_photos_eq_empty ud hpend]
    refine ⟨hnd, ?_, ?_, [], by simp, List.Pairwise.nil⟩
    · intro r; simp [hpend]
    · intro r hr; rw [hpend] at hr; cases hr
  · rw [check_album_timeout_photos_eq ud hpend]
    have hmem : ∀ r, r ∈ ud.photos ++ (pyDedup ud.pending_photos).filter
        (fun pid => pid ∉ ud.photos) ↔ r ∈ ud.photos ∨ r ∈ ud.pending_photos := by
      intro r
      rw [List.mem_append, List.mem_filter]
      simp only [decide_not, Bool.not_eq_true', decide_eq_false_iff_not, mem_pyDedup]
      by_cases hr : r ∈ ud.photos <;> simp [hr]
    have hnodup : (ud.photos ++ (pyDedup ud.pending_photos).filter
        (fun pid => pid ∉ ud.photos)).Nodup := by
      rw [List.nodup_append]
      refine ⟨hnd, (nodup_pyDedup _).filter _, ?_⟩
      intro x hx hx'
      rw [List.mem_filter] at hx'
      have := hx'.2
      simp only [decide_not, Bool.not_eq_true', decide_eq_false_iff_not] at this
      exact this hx
    refine ⟨hnodup, hmem, ?_, ?_⟩
    · intro r hr
      exact List.count_eq_one_of_mem hnodup ((hmem r).mpr (Or.inr hr))
    · refine ⟨_, rfl, ?_⟩
      exact (pairwise_indexOf_pyDedup ud.pending_photos).sublist (List.filter_sublist _)

/-- Witness for **C9** at a concrete flush: previously flushed photo `"a"`,
a burst redelivering `"b"` around `"c"`. -/
theorem c9_album_dedup_first_occurrence_witness :
    (({ photos := ["a"], pending_photos := ["b", "c", "b"] } : UserData).photos.Nodup)
    ∧ ((check_album_timeout
          { photos := ["a"], pending_photos := ["b", "c", "b"] }).1.photos.Nodup
       ∧ (∀ r, r ∈ (check_album_timeout
            { photos := ["a"], pending_photos := ["b", "c", "b"] }).1.photos
            ↔ r ∈ (["a"] : List String) ∨ r ∈ (["b", "c", "b"] : List String))
       ∧ (∀ r, r ∈ (["b", "c", "b"] : List String) →
            ((check_album_timeout
              { photos := ["a"], pending_photos := ["b", "c", "b"] }).1.photos).count r = 1)
       ∧ ∃ tail, (check_album_timeout
            { photos := ["a"], pending_photos := ["b", "c", "b"] }).1.photos
              = ["a"] ++ tail
            ∧ tail.Pairwise (fun x y =>
                (["b", "c", "b"] : List String).indexOf x
                  < (["b", "c", "b"] : List String).indexOf y)) :=
  ⟨by decide, c9_album_dedup_first_occurrence
    { photos := ["a"], pending_photos := ["b", "c", "b"] } (by decide)⟩

theorem total_pages_cons (ps : Nat) (hps : 1 ≤ ps) (l : List Entry) (hl : l ≠ []) :
    (l.length + ps - 1) / ps = ((l.drop ps).length + ps - 1) / ps + 1 := by
  have h1 : 1 ≤ l.length := List.length_pos.mpr hl
  rw [List.length_drop]
  rcases le_or_lt l.length ps with h | h
  · have h0 : l.length - ps = 0 := Nat.sub_eq_zero_of_le h
    rw [h0]
    have hr : (0 + ps - 1) / ps = 0 := Nat.div_eq_of_lt (by omega)
    have hlhs : (l.length + ps - 1) / ps = 1 :=
      Nat.div_eq_of_lt_le (by omega) (by omega)
    omega
  · have h2 : l.length - ps + ps - 1 = l.length - 1 := by omega
    have h3 : l.length + ps - 1 = (l.length - 1) + ps := by omega
    rw [h2, h3, Nat.add_div_right _ (by omega)]

theorem flatten_pageSlices (ps : Nat) (hps : 1 ≤ ps) :
    ∀ n (l : List Entry), l.length ≤ n →
      ((List.range ((l.length + ps - 1) / ps)).map
        (fun p => (l.drop (p * ps)).take ps)).flatten = l := by
  intro n
  induction n with
  | zero =>
    intro l hl
    have hnil : l = [] := List.length_eq_zero.mp (Nat.le_zero.mp hl)
    subst hnil
    simp [Nat.div_eq_of_lt (show 0 + ps - 1 < ps by omega)]
  | succ n ih =>
    intro l hl
    rcases l with _ | ⟨x, xs⟩
    · simp [Nat.div_eq_of_lt (show 0 + ps - 1 < ps by omega)]
    · rw [total_pages_cons ps hps (x :: xs) (by simp), List.range_succ_eq_map,
        List.map_cons, List.map_map, List.flatten_cons]
      have hcomp : ((fun p => ((x :: xs).drop (p * ps)).take ps) ∘ Nat.succ)
          = fun p => (((x :: xs).drop ps).drop (p * ps)).take ps := by
        funext p
        simp only [Function.comp_apply]
        rw [List.drop_drop]
        congr 2
        rw [Nat.succ_mul]
        ring
      rw [hcomp, ih ((x :: xs).drop ps)
        (by rw [List.length_drop]; simp only [List.length_cons] at hl ⊢; omega)]
      simp only [Nat.zero_mul, List.drop_zero]
      exact List.take_append_drop ps (x :: xs)

theorem core_slice_eq (ps : Nat) (hps : 1 ≤ ps) (l : List Entry) (p : Nat)
    (hp : p < (l.length + ps - 1) / ps) :
    (display_guide_page_core ps l (p : Int)).slice = (l.drop (p * ps)).take ps := by
  have hclamp : (max 0 (min (p : Int) (((l.length + ps - 1) / ps : Nat) - 1))).toNat = p := by
    omega
  simp only [display_guide_page_core, hclamp]
  rcases le_or_lt (p * ps + ps) l.length with h | h
  · have hmin : min (p * ps + ps) l.length - p * ps = ps := by omega
    rw [hmin]
  · have hmin : min (p * ps + ps) l.length - p * ps = l.length - p * ps := by omega
    rw [hmin, List.take_of_length_le, List.take_of_length_le]
    · rw [List.length_drop]; omega
    · rw [List.length_drop]

/-- The 17-element demo collection used by the C4 witness. -/
def c4DemoItems : List Entry :=
  (List.range 17).map (fun i =>
    { id := i, question := "q", answer := "a", photos := [], documents := [] })

/-- **C4.** Pagination round-trip for the page renderer of
`display_guide_page` / `display_template_page`: for every page size
`ps ≥ 1` (the source instantiates `ps = ITEMS_PER_PAGE = 15`) and every
item list, concatenating the visible slices over all valid pages, in page
order, reconstructs the list exactly — same elements, same order, no
duplicates, no omissions.  The second conjunct shows the two renderers
compute identical pages (slice, clamped page and both navigation
affordances) on the same input; determinism of each renderer is immediate
since both are pure functions of `(items, page)`. -/
theorem c4_pagination_round_trip (ps : Nat) (hps : 1 ≤ ps) (items : List Entry) :
    (((List.range ((items.length + ps - 1) / ps)).map
        (fun p => (display_guide_page_core ps items (Int.ofNat p)).slice)).flatten = items)
    ∧ ∀ page : Int, display_template_page_core ps items page
        = display_guide_page_core ps items page := by
  constructor
  · have h := flatten_pageSlices ps hps items.length items le_rfl
    calc ((List.range ((items.length + ps - 1) / ps)).map
            (fun p => (display_guide_page_core ps items (Int.ofNat p)).slice)).flatten
        = ((List.range ((items.length + ps - 1) / ps)).map
            (fun p => (items.drop (p * ps)).take ps)).flatten := by
          congr 1
          apply List.map_congr_left
          intro p hp
          exact core_slice_eq ps hps items p (List.mem_range.mp hp)
      _ = items := h
  · intro page
    rfl

/-- Witness for **C4** at the source's page size (15) and a concrete
17-element collection spanning two pages. -/
theorem c4_pagination_round_trip_witness :
    1 ≤ ITEMS_PER_PAGE
    ∧ (((List.range ((c4DemoItems.length + ITEMS_PER_PAGE - 1) / ITEMS_PER_PAGE)).map
          (fun p => (display_guide_page_core ITEMS_PER_PAGE c4DemoItems
              (Int.ofNat p)).slice)).flatten = c4DemoItems)
    ∧ (∀ page : Int, display_template_page_core ITEMS_PER_PAGE c4DemoItems page
        = display_guide_page_core ITEMS_PER_PAGE c4DemoItems page) := by
  refine ⟨by decide, ?_, ?_⟩
  · exact (c4_pagination_round_trip ITEMS_PER_PAGE (by decide) c4DemoItems).1
  · exact (c4_pagination_round_trip ITEMS_PER_PAGE (by decide) c4DemoItems).2

/-- The `*_ANSWER_PHOTOS` state the add-flow handlers return for a data
type (`GUIDE_ANSWER_PHOTOS if data_type == 'guide' else TEMPLATE_ANSWER_PHOTOS`). -/
def answerPhotosState (dt : String) : ConvState :=
  if dt = "guide" then ConvState.GUIDE_ANSWER_PHOTOS else ConvState.TEMPLATE_ANSWER_PHOTOS

/-- The entry that the sentinel branch of `receive_answer` appends: the
draft after the pending-album flush, with the next free id. -/
def committedEntry (dt q : String) (ud : UserData) (store : Store) : Entry :=
  { id := maxId (load_data dt store) + 1
    question := q
    answer := ud.answer.getD ""
    photos := (flushPendingPhotos ud).photos
    documents := ud.documents }

@[simp] theorem flush_conversation_active (ud : UserData) :
    (flushPendingPhotos ud).conversation_active = ud.conversation_active := by
  unfold flushPendingPhotos; split <;> rfl

@[simp] theorem flush_new_question (ud : UserData) :
    (flushPendingPhotos ud).new_question = ud.new_question := by
  unfold flushPendingPhotos; split <;> rfl

@[simp] theorem flush_data_type (ud : UserData) :
    (flushPendingPhotos ud).data_type = ud.data_type := by
  unfold flushPendingPhotos; split <;> rfl

@[simp] theorem flush_answer (ud : UserData) :
    (flushPendingPhotos ud).answer = ud.answer := by
  unfold flushPendingPhotos; split <;> rfl

@[simp] theorem flush_documents (ud : UserData) :
    (flushPendingPhotos ud).documents = ud.documents := by
  unfold flushPendingPhotos; split <;> rfl

@[simp] theorem flush_point_saved (ud : UserData) :
    (flushPendingPhotos ud).point_saved = ud.point_saved := by
  unfold flushPendingPhotos; split <;> rfl

theorem flush_photos (ud : UserData) :
    (flushPendingPhotos ud).photos
      = ud.photos ++ (pyDedup ud.pending_photos).filter (fun pid => pid ∉ ud.photos) := by
  unfold flushPendingPhotos
  split
  · rfl
  · next h =>
    have hpend : ud.pending_photos = [] := by
      by_contra hc; exact h hc
    rw [hpend]
    simp [pyDedup, pyDedupAux]

theorem flush_pending (ud : UserData) :
    (flushPendingPhotos ud).pending_photos = [] := by
  unfold flushPendingPhotos
  split
  · rfl
  · next h =>
    have hpend : ud.pending_photos = [] := by
      by_contra hc; exact h hc
    rw [← hpend]

@[simp] theorem adoptCaption_conversation_active (c : Option String) (ud : UserData) :
    (adoptCaption c ud).conversation_active = ud.conversation_active := by
  unfold adoptCaption; split <;> rfl

@[simp] theorem adoptCaption_new_question (c : Option String) (ud : UserData) :
    (adoptCaption c ud).new_question = ud.new_question := by
  unfold adoptCaption; split <;> rfl

@[simp] theorem adoptCaption_data_type (c : Option String) (ud : UserData) :
    (adoptCaption c ud).data_type = ud.data_type := by
  unfold adoptCaption; split <;> rfl

@[simp] theorem adoptCaption_photos (c : Option String) (ud : UserData) :
    (adoptCaption c ud).photos = ud.photos := by
  unfold adoptCaption; split <;> rfl

@[simp] theorem adoptCaption_documents (c : Option String) (ud : UserData) :
    (adoptCaption c ud).documents = ud.documents := by
  unfold adoptCaption; split <;> rfl

@[simp] theorem adoptCaption_pending (c : Option String) (ud : UserData) :
    (adoptCaption c ud).pending_photos = ud.pending_photos := by
  unfold adoptCaption; split <;> rfl

theorem save_new_point_some (ud : UserData) (store : Store) (q : String)
    (hq : ud.new_question = some q) :
    save_new_point ud store = some
      (save_data (ud.data_type.getD "guide")
        (load_data (ud.data_type.getD "guide") store
          ++ [{ id := maxId (load_data (ud.data_type.getD "guide") store) + 1
                question := q
                answer := ud.answer.getD ""
                photos := ud.photos
                documents := ud.documents }]) store,
       { id := maxId (load_data (ud.data_type.getD "guide") store) + 1
         question := q
         answer := ud.answer.getD ""
         photos := ud.photos
         documents := ud.documents }) := by
  unfold save_new_point
  rw [hq]

theorem receive_answer_sentinel (ud : UserData) (store : Store) (dt q : String)
    (hact : ud.conversation_active = true) (hq : ud.new_question = some q)
    (hdt : ud.data_type = some dt) (hdtv : dt = "guide" ∨ dt = "template") :
    receive_answer ud store (Msg.text "Готово") =
      { ud := clearedUD (upperDT dt ++ "_FILES_SAVED")
        store := save_data dt (load_data dt store ++ [committedEntry dt q ud store]) store
        next := ConvState.END
        replies := [Reply.pointSaved q] } := by
  have hne : ¬(ud.conversation_active = false ∨ ud.new_question = none) := by
    simp [hact, hq]
  have hdtc : ¬(ud.data_type.getD "guide" ≠ "guide" ∧ ud.data_type.getD "guide" ≠ "template") := by
    rcases hdtv with h | h <;> simp [hdt, h]
  have hq1 : (flushPendingPhotos ud).new_question = some q := by
    rw [flush_new_question, hq]
  unfold receive_answer
  rw [if_neg hne, if_neg hdtc]
  simp only [if_pos rfl]
  rw [save_new_point_some _ _ q hq1]
  simp [committedEntry, hdt, flush_answer, flush_documents, flush_data_type]

theorem receive_answer_nonsentinel (ud : UserData) (store : Store) (m : Msg) (dt q : String)
    (hact : ud.conversation_active = true) (hq : ud.new_question = some q)
    (hdt : ud.data_type = some dt) (hdtv : dt = "guide" ∨ dt = "template")
    (hns : ∀ s, m = Msg.text s → s ≠ "Готово") :
    (receive_answer ud store m).store = store
    ∧ (receive_answer ud store m).next = answerPhotosState dt
    ∧ (receive_answer ud store m).ud.conversation_active = true
    ∧ (receive_answer ud store m).ud.new_question = some q
    ∧ (receive_answer ud store m).ud.data_type = some dt := by
  have hne : ¬(ud.conversation_active = false ∨ ud.new_question = none) := by
    simp [hact, hq]
  have hdtc : ¬(ud.data_type.getD "guide" ≠ "guide" ∧ ud.data_type.getD "guide" ≠ "template") := by
    rcases hdtv with h | h <;> simp [hdt, h]
  unfold receive_answer
  rw [if_neg hne, if_neg hdtc]
  cases m with
  | text s =>
    have hs : s ≠ "Готово" := hns s rfl
    simp only [if_neg hs]
    simp [answerPhotosState, hdt, hact, hq]
  | photo sizes mgid caption =>
    cases mgid with
    | some g =>
      by_cases hlen : ud.pending_photos.length + 1 = 1 <;>
        simp [hlen, answerPhotosState, hdt, hact, hq] <;>
        split <;> simp [hact, hq, hdt]
    | none =>
      simp [answerPhotosState, hdt, hact, hq, adoptCaption]
      split <;> simp [hact, hq, hdt]
  | doc fileId mime size caption =>
    by_cases hmime : mime ∈ allowedMimes
    · by_cases hsize : size > maxDocSize
      · simp [hmime, hsize, answerPhotosState, hdt, hact, hq]
      · by_cases hfid : fileId ∈ ud.documents
        · simp [hmime, hsize, hfid, answerPhotosState, hdt, hact, hq]
        · simp [hmime, hsize, hfid, answerPhotosState, hdt, hact, hq, adoptCaption]
          split <;> simp [hact, hq, hdt]
    · simp [hmime, answerPhotosState, hdt, hact, hq]

theorem receive_answer_files_nontext (ud : UserData) (store : Store) (m : Msg) (dt : String)
    (hdt : ud.data_type = some dt) (hnt : ∀ s, m ≠ Msg.text s) :
    (receive_answer_files ud store m).store = store
    ∧ (receive_answer_files ud store m).next = answerPhotosState dt
    ∧ (receive_answer_files ud store m).ud.conversation_active = ud.conversation_active
    ∧ (receive_answer_files ud store m).ud.new_question = ud.new_question
    ∧ (receive_answer_files ud store m).ud.data_type = ud.data_type := by
  unfold receive_answer_files adoptCaption
  by_cases hcap : ud.photos.length + ud.documents.length ≥ MAX_MEDIA_PER_ALBUM
  · simp [hcap, answerPhotosState, hdt]
  · cases m with
    | text s => exact absurd rfl (hnt s)
    | photo sizes mgid caption =>
      cases mgid with
      | some g =>
        simp only [hcap, if_false]
        split_ifs <;> simp_all [answerPhotosState]
      | none =>
        simp only [hcap, if_false]
        split_ifs <;> simp_all [answerPhotosState]
    | doc fileId mime size caption =>
      simp only [hcap, if_false]
      split_ifs <;> simp_all [answerPhotosState]

@[simp] theorem check_album_timeout_conversation_active (ud : UserData) :
    (check_album_timeout ud).1.conversation_active = ud.conversation_active := by
  unfold check_album_timeout; split <;> rfl

@[simp] theorem check_album_timeout_new_question (ud : UserData) :
    (check_album_timeout ud).1.new_question = ud.new_question := by
  unfold check_album_timeout; split <;> rfl

@[simp] theorem check_album_timeout_data_type (ud : UserData) :
    (check_album_timeout ud).1.data_type = ud.data_type := by
  unfold check_album_timeout; split <;> rfl

@[simp] theorem check_album_timeout_answer (ud : UserData) :
    (check_album_timeout ud).1.answer = ud.answer := by
  unfold check_album_timeout; split <;> rfl

@[simp] theorem check_album_timeout_documents (ud : UserData) :
    (check_album_timeout ud).1.documents = ud.documents := by
  unfold check_album_timeout; split <;> rfl

/-- The dispatcher invariant maintained throughout an add-flow dialog:
the conversation sits in one of the four answer-collection states, the
session is active with a recorded draft question and data type, and the
store still holds its initial contents. -/
def ValidAdd (dt q : String) (store0 : Store) (s : SysState) : Prop :=
  (s.conv = ConvState.GUIDE_ANSWER ∨ s.conv = ConvState.TEMPLATE_ANSWER
    ∨ s.conv = ConvState.GUIDE_ANSWER_PHOTOS ∨ s.conv = ConvState.TEMPLATE_ANSWER_PHOTOS)
  ∧ s.ud.conversation_active = true
  ∧ s.ud.new_question = some q
  ∧ s.ud.data_type = some dt
  ∧ s.store = store0

theorem answerPhotosState_mem (dt : String) :
    answerPhotosState dt = ConvState.GUIDE_ANSWER_PHOTOS
      ∨ answerPhotosState dt = ConvState.TEMPLATE_ANSWER_PHOTOS := by
  unfold answerPhotosState
  split
  · exact Or.inl rfl
  · exact Or.inr rfl

theorem stepSys_preserves_ValidAdd (dt q : String) (store0 : Store) (s : SysState)
    (e : Event) (hdtv : dt = "guide" ∨ dt = "template")
    (hv : ValidAdd dt q store0 s) (hns : isSentinelEvent e = false) :
    ValidAdd dt q store0 (stepSys s e) := by
  obtain ⟨c, u, st⟩ := s
  obtain ⟨hconv, hact, hq, hdt, hst⟩ := hv
  simp only at hconv hact hq hdt hst
  cases e with
  | timer =>
    by_cases ht : u.timeout_task
    · have hstep : stepSys ⟨c, u, st⟩ Event.timer
          = { conv := c, ud := (check_album_timeout u).1, store := st } := by
        simp [stepSys, ht]
      rw [hstep]
      exact ⟨hconv, by simp [hact], by simp [hq], by simp [hdt], hst⟩
    · have hstep : stepSys ⟨c, u, st⟩ Event.timer = ⟨c, u, st⟩ := by
        simp [stepSys, ht]
      rw [hstep]
      exact ⟨hconv, hact, hq, hdt, hst⟩
  | msg m =>
    have hmns : ∀ str, m = Msg.text str → str ≠ "Готово" := by
      intro str hm hstr
      subst hm; subst hstr
      simp [isSentinelEvent, sentinelEvent] at hns
    have hviaAnswer : ∀ c0 : ConvState,
        (stepSys ⟨c0, u, st⟩ (Event.msg m)
          = { conv := (receive_answer u st m).next, ud := (receive_answer u st m).ud,
              store := (receive_answer u st m).store }) →
        ValidAdd dt q store0 (stepSys ⟨c0, u, st⟩ (Event.msg m)) := by
      intro c0 hstep
      rw [hstep]
      have hra := receive_answer_nonsentinel u st m dt q hact hq hdt hdtv hmns
      refine ⟨?_, hra.2.2.1, hra.2.2.2.1, hra.2.2.2.2, hra.1.trans hst⟩
      rcases answerPhotosState_mem dt with ha | ha
      · exact Or.inr (Or.inr (Or.inl (by rw [hra.2.1, ha])))
      · exact Or.inr (Or.inr (Or.inr (by rw [hra.2.1, ha])))
    have hviaFiles : ∀ c0 : ConvState, (∀ str, m ≠ Msg.text str) →
        (stepSys ⟨c0, u, st⟩ (Event.msg m)
          = { conv := (receive_answer_files u st m).next, ud := (receive_answer_files u st m).ud,
              store := (receive_answer_files u st m).store }) →
        ValidAdd dt q store0 (stepSys ⟨c0, u, st⟩ (Event.msg m)) := by
      intro c0 hnt hstep
      rw [hstep]
      have hrf := receive_answer_files_nontext u st m dt hdt hnt
      refine ⟨?_, by rw [hrf.2.2.1, hact], by rw [hrf.2.2.2.1, hq],
        by rw [hrf.2.2.2.2, hdt], hrf.1.trans hst⟩
      rcases answerPhotosState_mem dt with ha | ha
      · exact Or.inr (Or.inr (Or.inl (by rw [hrf.2.1, ha])))
      · exact Or.inr (Or.inr (Or.inr (by rw [hrf.2.1, ha])))
    rcases hconv with h | h | h | h <;> subst h
    · exact hviaAnswer _ rfl
    · exact hviaAnswer _ rfl
    · cases m with
      | text str => exact hviaAnswer _ rfl
      | photo sizes mgid caption =>
        exact hviaFiles _ (by intro str hc; cases hc) rfl
      | doc fileId mime size caption =>
        exact hviaFiles _ (by intro str hc; cases hc) rfl
    · cases m with
      | text str => exact hviaAnswer _ rfl
      | photo sizes mgid caption =>
        exact hviaFiles _ (by intro str hc; cases hc) rfl
      | doc fileId mime size caption =>
        exact hviaFiles _ (by intro str hc; cases hc) rfl

theorem runSys_preserves_ValidAdd (dt q : String) (store0 : Store)
    (hdtv : dt = "guide" ∨ dt = "template") :
    ∀ (es : List Event) (s : SysState), (∀ e ∈ es, isSentinelEvent e = false) →
      ValidAdd dt q store0 s → ValidAdd dt q store0 (runSys s es) := by
  intro es
  induction es with
  | nil => intro s _ hv; exact hv
  | cons e es ih =>
    intro s hes hv
    have h1 : ValidAdd dt q store0 (stepSys s e) :=
      stepSys_preserves_ValidAdd dt q store0 s e hdtv hv
        (hes e (List.mem_cons_self e es))
    exact ih (stepSys s e) (fun e' he' => hes e' (List.mem_cons_of_mem e he')) h1

theorem stepSys_sentinel (dt q : String) (store0 : Store) (s : SysState)
    (hdtv : dt = "guide" ∨ dt = "template") (hv : ValidAdd dt q store0 s) :
    stepSys s sentinelEvent =
      { conv := ConvState.END
        ud := clearedUD (upperDT dt ++ "_FILES_SAVED")
        store := save_data dt (load_data dt store0 ++ [committedEntry dt q s.ud store0]) store0 } := by
  obtain ⟨c, u, st⟩ := s
  obtain ⟨hconv, hact, hq, hdt, hst⟩ := hv
  simp only at hconv hact hq hdt hst
  subst st
  have hra := receive_answer_sentinel u store0 dt q hact hq hdt hdtv
  have hdispatch : ∀ c0 : ConvState,
      (stepSys ⟨c0, u, store0⟩ sentinelEvent
        = { conv := (receive_answer u store0 (Msg.text "Готово")).next
            ud := (receive_answer u store0 (Msg.text "Готово")).ud
            store := (receive_answer u store0 (Msg.text "Готово")).store }) →
      stepSys ⟨c0, u, store0⟩ sentinelEvent =
        { conv := ConvState.END
          ud := clearedUD (upperDT dt ++ "_FILES_SAVED")
          store := save_data dt (load_data dt store0
            ++ [committedEntry dt q (⟨c0, u, store0⟩ : SysState).ud store0]) store0 } := by
    intro c0 hstep
    rw [hstep, hra]
  rcases hconv with h | h | h | h <;> subst h
  · exact hdispatch _ rfl
  · exact hdispatch _ rfl
  · exact hdispatch _ rfl
  · exact hdispatch _ rfl

/-- **C3.** For every sequence of add-flow inputs ending in the sentinel
"Готово" (earlier events being arbitrary non-sentinel messages or
debounce-timer firings), exactly one Entry is appended to the target
Collection, and its id is the maximum id among the pre-existing entries
plus one — hence `1` when the Collection was empty.  The start state is
any dialog state reachable after the draft question was recorded
(`ValidAdd`), and the final store differs from the initial one exactly by
the single appended entry. -/
theorem c3_single_append_max_id (dt q : String) (store0 : Store) (s : SysState)
    (events : List Event) (hdtv : dt = "guide" ∨ dt = "template")
    (hv : ValidAdd dt q store0 s)
    (hev : ∀ e ∈ events, isSentinelEvent e = false) :
    ∃ np : Entry,
      (runSys s (events ++ [sentinelEvent])).store
        = save_data dt (load_data dt store0 ++ [np]) store0
      ∧ np.id = maxId (load_data dt store0) + 1
      ∧ np.question = q
      ∧ (load_data dt store0 = [] → np.id = 1) := by
  have hmid : ValidAdd dt q store0 (runSys s events) :=
    runSys_preserves_ValidAdd dt q store0 hdtv events s hev hv
  have hrun : runSys s (events ++ [sentinelEvent])
      = stepSys (runSys s events) sentinelEvent := by
    unfold runSys
    rw [List.foldl_append]
    rfl
  refine ⟨committedEntry dt q (runSys s events).ud store0, ?_, rfl, rfl, ?_⟩
  · rw [hrun, stepSys_sentinel dt q store0 (runSys s events) hdtv hmid]
  · intro hempty
    simp [committedEntry, hempty, maxId]

/-- Witness for **C3**: a fresh guide draft with question "Printer jam",
one non-album photo before the sentinel, empty initial store. -/
theorem c3_single_append_max_id_witness :
    (("guide" : String) = "guide" ∨ ("guide" : String) = "template")
    ∧ ValidAdd "guide" "Printer jam" ⟨[], []⟩
        ⟨ConvState.GUIDE_ANSWER,
         { conversation_active := true, new_question := some "Printer jam",
           data_type := some "guide", point_saved := some false }, ⟨[], []⟩⟩
    ∧ (∀ e ∈ [Event.msg (Msg.photo ["p1"] none none)], isSentinelEvent e = false)
    ∧ ∃ np : Entry,
        (runSys
          ⟨ConvState.GUIDE_ANSWER,
           { conversation_active := true, new_question := some "Printer jam",
             data_type := some "guide", point_saved := some false }, ⟨[], []⟩⟩
          ([Event.msg (Msg.photo ["p1"] none none)] ++ [sentinelEvent])).store
          = save_data "guide" (load_data "guide" ⟨[], []⟩ ++ [np]) ⟨[], []⟩
        ∧ np.id = maxId (load_data "guide" ⟨[], []⟩) + 1
        ∧ np.question = "Printer jam"
        ∧ (load_data "guide" ⟨[], []⟩ = [] → np.id = 1) :=
  ⟨Or.inl rfl, ⟨Or.inl rfl, rfl, rfl, rfl, rfl⟩, by decide,
   c3_single_append_max_id "guide" "Printer jam" ⟨[], []⟩ _ _ (Or.inl rfl)
     ⟨Or.inl rfl, rfl, rfl, rfl, rfl⟩ (by decide)⟩

theorem check_album_timeout_photos (u : UserData) :
    (check_album_timeout u).1.photos = (flushPendingPhotos u).photos := by
  rw [flush_photos]
  unfold check_album_timeout
  split
  · rfl
  · next h =>
    have hpend : u.pending_photos = [] := by
      by_contra hc; exact h hc
    simp [hpend, pyDedup, pyDedupAux]

theorem check_album_timeout_pending (u : UserData) :
    (check_album_timeout u).1.pending_photos = [] := by
  unfold check_album_timeout
  split
  · rfl
  · next h =>
    have hpend : u.pending_photos = [] := by
      by_contra hc; exact h hc
    simpa using hpend

theorem flush_photos_of_pending_nil (u : UserData) (h : u.pending_photos = []) :
    (flushPendingPhotos u).photos = u.photos := by
  rw [flush_photos, h]
  simp [pyDedup, pyDedupAux]

theorem committedEntry_point_saved (dt q : String) (b : Option Bool) (u : UserData)
    (store : Store) :
    committedEntry dt q { u with point_saved := b } store = committedEntry dt q u store := by
  unfold committedEntry
  simp [flush_photos]

theorem committedEntry_check_album (dt q : String) (u : UserData) (store : Store) :
    committedEntry dt q (check_album_timeout u).1 store = committedEntry dt q u store := by
  unfold committedEntry
  simp only [check_album_timeout_answer, check_album_timeout_documents]
  rw [flush_photos_of_pending_nil _ (check_album_timeout_pending u),
    check_album_timeout_photos]

theorem run_timer_sentinel_sentinel (dt q : String) (store0 : Store) (s : SysState)
    (hdtv : dt = "guide" ∨ dt = "template") (hv : ValidAdd dt q store0 s) :
    (runSys s [Event.timer, sentinelEvent, sentinelEvent]).store
      = save_data dt (load_data dt store0 ++ [committedEntry dt q s.ud store0]) store0 := by
  have htimerns : isSentinelEvent Event.timer = false := rfl
  have hv1 := stepSys_preserves_ValidAdd dt q store0 s Event.timer hdtv hv htimerns
  have hsent := stepSys_sentinel dt q store0 (stepSys s Event.timer) hdtv hv1
  have hce : committedEntry dt q (stepSys s Event.timer).ud store0
      = committedEntry dt q s.ud store0 := by
    obtain ⟨c, u, st⟩ := s
    by_cases ht : u.timeout_task
    · have hstep : stepSys ⟨c, u, st⟩ Event.timer
          = { conv := c, ud := (check_album_timeout u).1, store := st } := by
        simp [stepSys, ht]
      rw [hstep]
      exact committedEntry_check_album dt q u store0
    · have hstep : stepSys ⟨c, u, st⟩ Event.timer = ⟨c, u, st⟩ := by
        simp [stepSys, ht]
      rw [hstep]
  show (stepSys (stepSys (stepSys s Event.timer) sentinelEvent) sentinelEvent).store
      = save_data dt (load_data dt store0 ++ [committedEntry dt q s.ud store0]) store0
  rw [hsent, hce]
  rfl

/-- **C1 counterexample.** The claim states the write is *gated* by the
Session's `point_saved` flag, both commit paths checking and setting it
before writing.  In the code the flag is initialised to `False` by
`add_point`/`add_template` and never read or written again: a session
whose flag already says `True` ("already saved") still commits — the
sentinel branch of `receive_answer` appends an entry regardless — and the
commit path does not set the flag to `True` either (the session is simply
cleared). -/
theorem c1_point_saved_gate_counterexample :
    (receive_answer
        { conversation_active := true, new_question := some "Q",
          data_type := some "guide", point_saved := some true }
        ⟨[], []⟩ (Msg.text "Готово")).store.guide
      = [{ id := 1, question := "Q", answer := "", photos := [], documents := [] }]
    ∧ (receive_answer
        { conversation_active := true, new_question := some "Q",
          data_type := some "guide", point_saved := some true }
        ⟨[], []⟩ (Msg.text "Готово")).ud.point_saved ≠ some true := by
  refine ⟨?_, by decide⟩
  decide

/-- **C1 (amended).** Exactly-once saving for the debounce-timer /
interrupting-sentinel pair holds, but not because of `point_saved`: the
debounce callback (`check_album_timeout`) never writes an Entry — it only
flushes pending album photos into the draft — and after the sentinel
commit the session is cleared and the conversation ended, so a repeated
sentinel is absorbed.  Firing the timer and then the sentinel twice
appends exactly one Entry, and the outcome is independent of the value
(or absence) of `point_saved`, which no commit path reads or updates. -/
theorem c1_exactly_once_without_flag (dt q : String) (store0 : Store) (s : SysState)
    (hdtv : dt = "guide" ∨ dt = "template") (hv : ValidAdd dt q store0 s) :
    ((runSys s [Event.timer, sentinelEvent, sentinelEvent]).store
      = save_data dt (load_data dt store0 ++ [committedEntry dt q s.ud store0]) store0)
    ∧ ∀ b : Option Bool,
        (runSys ⟨s.conv, { s.ud with point_saved := b }, s.store⟩
            [Event.timer, sentinelEvent, sentinelEvent]).store
          = save_data dt (load_data dt store0 ++ [committedEntry dt q s.ud store0]) store0 := by
  refine ⟨run_timer_sentinel_sentinel dt q store0 s hdtv hv, ?_⟩
  intro b
  have hv' : ValidAdd dt q store0 ⟨s.conv, { s.ud with point_saved := b }, s.store⟩ :=
    ⟨hv.1, hv.2.1, hv.2.2.1, hv.2.2.2.1, hv.2.2.2.2⟩
  have h := run_timer_sentinel_sentinel dt q store0
    ⟨s.conv, { s.ud with point_saved := b }, s.store⟩ hdtv hv'
  rw [h]
  rw [show (⟨s.conv, { s.ud with point_saved := b }, s.store⟩ : SysState).ud
      = { s.ud with point_saved := b } from rfl]
  rw [committedEntry_point_saved]

/-- Witness for **C1 (amended)**: a guide draft with a pending two-photo
album and a scheduled debounce job; the timer flushes, the first sentinel
commits one entry, the second sentinel is absorbed. -/
theorem c1_exactly_once_without_flag_witness :
    (("guide" : String) = "guide" ∨ ("guide" : String) = "template")
    ∧ ValidAdd "guide" "Q" ⟨[], []⟩
        ⟨ConvState.GUIDE_ANSWER_PHOTOS,
         { conversation_active := true, new_question := some "Q",
           data_type := some "guide", point_saved := some false,
           pending_photos := ["p1", "p2"], timeout_task := true }, ⟨[], []⟩⟩
    ∧ (((runSys
          ⟨ConvState.GUIDE_ANSWER_PHOTOS,
           { conversation_active := true, new_question := some "Q",
             data_type := some "guide", point_saved := some false,
             pending_photos := ["p1", "p2"], timeout_task := true }, ⟨[], []⟩⟩
          [Event.timer, sentinelEvent, sentinelEvent]).store
        = save_data "guide" (load_data "guide" ⟨[], []⟩
            ++ [committedEntry "guide" "Q"
                  { conversation_active := true, new_question := some "Q",
                    data_type := some "guide", point_saved := some false,
                    pending_photos := ["p1", "p2"], timeout_task := true } ⟨[], []⟩]) ⟨[], []⟩)
      ∧ ∀ b : Option Bool,
          (runSys
            ⟨ConvState.GUIDE_ANSWER_PHOTOS,
             { conversation_active := true, new_question := some "Q",
               data_type := some "guide", point_saved := b,
               pending_photos := ["p1", "p2"], timeout_task := true }, ⟨[], []⟩⟩
            [Event.timer, sentinelEvent, sentinelEvent]).store
          = save_data "guide" (load_data "guide" ⟨[], []⟩
              ++ [committedEntry "guide" "Q"
                    { conversation_active := true, new_question := some "Q",
                      data_type := some "guide", point_saved := some false,
                      pending_photos := ["p1", "p2"], timeout_task := true } ⟨[], []⟩]) ⟨[], []⟩) :=
  ⟨Or.inl rfl, ⟨Or.inr (Or.inr (Or.inl rfl)), rfl, rfl, rfl, rfl⟩,
   c1_exactly_once_without_flag "guide" "Q" ⟨[], []⟩ _ (Or.inl rfl)
     ⟨Or.inr (Or.inr (Or.inl rfl)), rfl, rfl, rfl, rfl⟩⟩

/-- **C2 counterexample.** After the question "Printer jam", the bare text
message "Restart printer" does *not* commit: no Entry is appended to the
empty collection, the conversation moves to the attachment-collection
state `GUIDE_ANSWER_PHOTOS` (not `END`), the session stays active, and
the text is merely stored as the draft answer. -/
theorem c2_bare_text_commit_counterexample :
    ((receive_answer
        { conversation_active := true, new_question := some "Printer jam",
          data_type := some "guide", point_saved := some false }
        ⟨[], []⟩ (Msg.text "Restart printer")).store.guide = [])
    ∧ (receive_answer
        { conversation_active := true, new_question := some "Printer jam",
          data_type := some "guide", point_saved := some false }
        ⟨[], []⟩ (Msg.text "Restart printer")).next = ConvState.GUIDE_ANSWER_PHOTOS
    ∧ (receive_answer
        { conversation_active := true, new_question := some "Printer jam",
          data_type := some "guide", point_saved := some false }
        ⟨[], []⟩ (Msg.text "Restart printer")).ud.conversation_active = true
    ∧ (receive_answer
        { conversation_active := true, new_question := some "Printer jam",
          data_type := some "guide", point_saved := some false }
        ⟨[], []⟩ (Msg.text "Restart printer")).ud.answer = some "Restart printer" := by
  refine ⟨?_, ?_, ?_, ?_⟩ <;> decide

/-- **C2 (amended).** A bare text message in the ANSWER state stores the
text as the draft answer and transitions to the attachment-collection
state; the commit happens on the subsequent sentinel "Готово", which then
appends `{id: 1, question: "Printer jam", answer: "Restart printer"}` to
the empty collection, shows the confirmation and resets the session to an
inactive state with the conversation ended. -/
theorem c2_bare_text_then_sentinel :
    ((receive_answer
        ((receive_answer
            { conversation_active := true, new_question := some "Printer jam",
              data_type := some "guide", point_saved := some false }
            ⟨[], []⟩ (Msg.text "Restart printer")).ud)
        ⟨[], []⟩ (Msg.text "Готово")).store.guide
      = [{ id := 1, question := "Printer jam", answer := "Restart printer",
           photos := [], documents := [] }])
    ∧ (receive_answer
        ((receive_answer
            { conversation_active := true, new_question := some "Printer jam",
              data_type := some "guide", point_saved := some false }
            ⟨[], []⟩ (Msg.text "Restart printer")).ud)
        ⟨[], []⟩ (Msg.text "Готово")).replies = [Reply.pointSaved "Printer jam"]
    ∧ (receive_answer
        ((receive_answer
            { conversation_active := true, new_question := some "Printer jam",
              data_type := some "guide", point_saved := some false }
            ⟨[], []⟩ (Msg.text "Restart printer")).ud)
        ⟨[], []⟩ (Msg.text "Готово")).ud.conversation_active = false
    ∧ (receive_answer
        ((receive_answer
            { conversation_active := true, new_question := some "Printer jam",
              data_type := some "guide", point_saved := some false }
            ⟨[], []⟩ (Msg.text "Restart printer")).ud)
        ⟨[], []⟩ (Msg.text "Готово")).next = ConvState.END := by
  refine ⟨?_, ?_, ?_, ?_⟩ <;> decide

theorem pyDedup_ne_nil (l : List String) (h : l ≠ []) : pyDedup l ≠ [] := by
  cases l with
  | nil => exact absurd rfl h
  | cons x xs => simp [pyDedup, pyDedupAux]

theorem flush_photos_ne_nil (ud : UserData)
    (h : ud.photos ≠ [] ∨ ud.pending_photos ≠ []) :
    (flushPendingPhotos ud).photos ≠ [] := by
  rw [flush_photos]
  rcases h with h | h
  · intro hc
    exact h (List.append_eq_nil.mp hc).1
  · by_cases hp : ud.photos = []
    · rw [hp]
      simp only [List.nil_append, List.not_mem_nil, not_false_eq_true, decide_True,
        List.filter_true]
      exact pyDedup_ne_nil _ h
    · intro hc
      exact hp (List.append_eq_nil.mp hc).1

/-- **C5 counterexample.** The data-model invariant (non-empty answer, a
photo or a document) can be violated by a commit: sending the sentinel as
the very first ANSWER-state message commits an Entry with an empty answer
and no attachments. -/
theorem c5_invariant_counterexample :
    ((receive_answer
        { conversation_active := true, new_question := some "Printer jam",
          data_type := some "guide", point_saved := some false }
        ⟨[], []⟩ (Msg.text "Готово")).store.guide
      = [{ id := 1, question := "Printer jam", answer := "", photos := [],
           documents := [] }])
    ∧ ¬ entryInvariant
        { id := 1, question := "Printer jam", answer := "", photos := [],
          documents := [] } := by
  refine ⟨?_, ?_⟩ <;> decide

/-- **C5 (amended).** A committed Entry satisfies the invariant exactly
when the draft at commit time is non-empty: whenever the session holds a
non-empty answer, a photo (flushed or still pending) or a document, the
sentinel commit of `receive_answer` appends an Entry with a non-empty
answer, at least one photo or at least one document.  (The unconditional
claim fails — see the counterexample — because nothing stops the commit
of a completely empty draft.) -/
theorem c5_invariant_of_nonempty_draft (ud : UserData) (store : Store) (dt q : String)
    (hact : ud.conversation_active = true) (hq : ud.new_question = some q)
    (hdt : ud.data_type = some dt) (hdtv : dt = "guide" ∨ dt = "template")
    (hdraft : ud.answer.getD "" ≠ "" ∨ ud.photos ≠ [] ∨ ud.pending_photos ≠ []
      ∨ ud.documents ≠ []) :
    (receive_answer ud store (Msg.text "Готово")).store
      = save_data dt (load_data dt store ++ [committedEntry dt q ud store]) store
    ∧ entryInvariant (committedEntry dt q ud store) := by
  constructor
  · rw [receive_answer_sentinel ud store dt q hact hq hdt hdtv]
  · unfold entryInvariant committedEntry
    rcases hdraft with h | h | h | h
    · exact Or.inl h
    · exact Or.inr (Or.inl (flush_photos_ne_nil ud (Or.inl h)))
    · exact Or.inr (Or.inl (flush_photos_ne_nil ud (Or.inr h)))
    · exact Or.inr (Or.inr h)

/-- Witness for **C5 (amended)**: a draft holding one pending album photo. -/
theorem c5_invariant_of_nonempty_draft_witness :
    (({ conversation_active := true, new_question := some "Q",
        data_type := some "guide", pending_photos := ["p1"] } : UserData).conversation_active
          = true)
    ∧ (((receive_answer
          { conversation_active := true, new_question := some "Q",
            data_type := some "guide", pending_photos := ["p1"] }
          ⟨[], []⟩ (Msg.text "Готово")).store
        = save_data "guide" (load_data "guide" ⟨[], []⟩
            ++ [committedEntry "guide" "Q"
                  { conversation_active := true, new_question := some "Q",
                    data_type := some "guide", pending_photos := ["p1"] } ⟨[], []⟩]) ⟨[], []⟩)
      ∧ entryInvariant (committedEntry "guide" "Q"
          { conversation_active := true, new_question := some "Q",
            data_type := some "guide", pending_photos := ["p1"] } ⟨[], []⟩)) :=
  ⟨rfl, c5_invariant_of_nonempty_draft
    { conversation_active := true, new_question := some "Q",
      data_type := some "guide", pending_photos := ["p1"] }
    ⟨[], []⟩ "guide" "Q" rfl rfl rfl (Or.inl rfl) (Or.inr (Or.inr (Or.inl (by decide))))⟩

/-- **C6 counterexample.** The album cap never bounds the pending buffer:
the cap check in `receive_answer_files` counts only `photos + documents`,
not `pending_photos`.  An 11-photo album burst is accepted photo by photo
(each arrival appends to `pending_photos` while the count under the cap
check is still 0); when the debounce timer fires, the flush pushes the
draft to 11 photos — strictly above `MAX_MEDIA_PER_ALBUM = 10`. -/
theorem c6_album_cap_counterexample :
    ((runSys
        ⟨ConvState.GUIDE_ANSWER,
         { conversation_active := true, new_question := some "Q",
           data_type := some "guide", point_saved := some false }, ⟨[], []⟩⟩
        [ Event.msg (Msg.photo ["a1"] (some 1) none)
        , Event.msg (Msg.photo ["a2"] (some 1) none)
        , Event.msg (Msg.photo ["a3"] (some 1) none)
        , Event.msg (Msg.photo ["a4"] (some 1) none)
        , Event.msg (Msg.photo ["a5"] (some 1) none)
        , Event.msg (Msg.photo ["a6"] (some 1) none)
        , Event.msg (Msg.photo ["a7"] (some 1) none)
        , Event.msg (Msg.photo ["a8"] (some 1) none)
        , Event.msg (Msg.photo ["a9"] (some 1) none)
        , Event.msg (Msg.photo ["a10"] (some 1) none)
        , Event.msg (Msg.photo ["a11"] (some 1) none)
        , Event.timer ]).ud.photos.length = 11)
    ∧ MAX_MEDIA_PER_ALBUM <
        (runSys
          ⟨ConvState.GUIDE_ANSWER,
           { conversation_active := true, new_question := some "Q",
             data_type := some "guide", point_saved := some false }, ⟨[], []⟩⟩
          [ Event.msg (Msg.photo ["a1"] (some 1) none)
          , Event.msg (Msg.photo ["a2"] (some 1) none)
          , Event.msg (Msg.photo ["a3"] (some 1) none)
          , Event.msg (Msg.photo ["a4"] (some 1) none)
          , Event.msg (Msg.photo ["a5"] (some 1) none)
          , Event.msg (Msg.photo ["a6"] (some 1) none)
          , Event.msg (Msg.photo ["a7"] (some 1) none)
          , Event.msg (Msg.photo ["a8"] (some 1) none)
          , Event.msg (Msg.photo ["a9"] (some 1) none)
          , Event.msg (Msg.photo ["a10"] (some 1) none)
          , Event.msg (Msg.photo ["a11"] (some 1) none)
          , Event.timer ]).ud.photos.length := by
  refine ⟨?_, ?_⟩ <;> decide

/-- **C6 (amended).** What the cap actually guarantees: when a message
arrives in the attachment-collection state with `photos + documents`
already at or above `MAX_MEDIA_PER_ALBUM`, `receive_answer_files` rejects
it with the cap message without reading the message at all — the
message's own attachment is not added, the documents list is unchanged,
no commit happens and the state is kept — but the pending album photos
(which the cap does not count) are still flushed into the draft, so the
draft can end up past the cap. -/
theorem c6_cap_branch_behaviour (ud : UserData) (store : Store) (m : Msg)
    (hcap : MAX_MEDIA_PER_ALBUM ≤ ud.photos.length + ud.documents.length) :
    (receive_answer_files ud store m).ud = flushPendingPhotos ud
    ∧ (receive_answer_files ud store m).store = store
    ∧ (receive_answer_files ud store m).next
        = answerPhotosState (ud.data_type.getD "guide")
    ∧ (receive_answer_files ud store m).replies = [Reply.capExceeded]
    ∧ (receive_answer_files ud store m).ud.documents = ud.documents := by
  have hcap' : ud.photos.length + ud.documents.length ≥ MAX_MEDIA_PER_ALBUM := hcap
  refine ⟨?_, ?_, ?_, ?_, ?_⟩ <;>
    · unfold receive_answer_files
      simp [hcap', answerPhotosState, flush_documents]

/-- Witness for **C6 (amended)**: ten flushed photos, one pending album
photo, an arriving document — rejected, yet the flush pushes the draft to
11 photos. -/
theorem c6_cap_branch_behaviour_witness :
    MAX_MEDIA_PER_ALBUM ≤
      (({ photos := ["a1", "a2", "a3", "a4", "a5", "a6", "a7", "a8", "a9", "a10"],
          pending_photos := ["pX"], data_type := some "guide" } : UserData).photos.length
        + ({ photos := ["a1", "a2", "a3", "a4", "a5", "a6", "a7", "a8", "a9", "a10"],
             pending_photos := ["pX"], data_type := some "guide" } : UserData).documents.length)
    ∧ ((receive_answer_files
          { photos := ["a1", "a2", "a3", "a4", "a5", "a6", "a7", "a8", "a9", "a10"],
            pending_photos := ["pX"], data_type := some "guide" }
          ⟨[], []⟩ (Msg.doc "d1" "application/pdf" 5 none)).ud
        = flushPendingPhotos
            { photos := ["a1", "a2", "a3", "a4", "a5", "a6", "a7", "a8", "a9", "a10"],
              pending_photos := ["pX"], data_type := some "guide" }
      ∧ (receive_answer_files
          { photos := ["a1", "a2", "a3", "a4", "a5", "a6", "a7", "a8", "a9", "a10"],
            pending_photos := ["pX"], data_type := some "guide" }
          ⟨[], []⟩ (Msg.doc "d1" "application/pdf" 5 none)).store = ⟨[], []⟩
      ∧ (receive_answer_files
          { photos := ["a1", "a2", "a3", "a4", "a5", "a6", "a7", "a8", "a9", "a10"],
            pending_photos := ["pX"], data_type := some "guide" }
          ⟨[], []⟩ (Msg.doc "d1" "application/pdf" 5 none)).next
          = answerPhotosState
              (({ photos := ["a1", "a2", "a3", "a4", "a5", "a6", "a7", "a8", "a9", "a10"],
                  pending_photos := ["pX"],
                  data_type := some "guide" } : UserData).data_type.getD "guide")
      ∧ (receive_answer_files
          { photos := ["a1", "a2", "a3", "a4", "a5", "a6", "a7", "a8", "a9", "a10"],
            pending_photos := ["pX"], data_type := some "guide" }
          ⟨[], []⟩ (Msg.doc "d1" "application/pdf" 5 none)).replies = [Reply.capExceeded]
      ∧ (receive_answer_files
          { photos := ["a1", "a2", "a3", "a4", "a5", "a6", "a7", "a8", "a9", "a10"],
            pending_photos := ["pX"], data_type := some "guide" }
          ⟨[], []⟩ (Msg.doc "d1" "application/pdf" 5 none)).ud.documents
          = ({ photos := ["a1", "a2", "a3", "a4", "a5", "a6", "a7", "a8", "a9", "a10"],
               pending_photos := ["pX"],
               data_type := some "guide" } : UserData).documents) :=
  ⟨by decide, c6_cap_branch_behaviour
    { photos := ["a1", "a2", "a3", "a4", "a5", "a6", "a7", "a8", "a9", "a10"],
      pending_photos := ["pX"], data_type := some "guide" }
    ⟨[], []⟩ (Msg.doc "d1" "application/pdf" 5 none) (by decide)⟩

theorem receive_answer_files_store_nontext (ud : UserData) (store : Store) (m : Msg)
    (hnt : ∀ s, m ≠ Msg.text s) :
    (receive_answer_files ud store m).store = store := by
  unfold receive_answer_files adoptCaption
  by_cases hcap : ud.photos.length + ud.documents.length ≥ MAX_MEDIA_PER_ALBUM
  · simp [hcap]
  · cases m with
    | text s => exact absurd rfl (hnt s)
    | photo sizes mgid caption =>
      cases mgid with
      | some g => simp only [hcap, if_false]
      | none => simp only [hcap, if_false]
    | doc fileId mime size caption =>
      simp only [hcap, if_false]
      split_ifs <;> rfl

theorem receive_answer_inactive (ud : UserData) (store : Store) (m : Msg)
    (hact : ud.conversation_active = false) :
    receive_answer ud store m =
      { ud := clearedUD "INVALID_ANSWER", store := store, next := ConvState.END
        replies := [Reply.restartFlow] } := by
  unfold receive_answer
  rw [if_pos (Or.inl hact)]

/-- **C7 counterexample.** `receive_answer_files` — the registered handler
for photo/document messages in the attachment-collection state — performs
no `conversation_active` check at all: with an inactive session
(`active = false`) a single-photo message is *accepted*, not rejected.
The handler replies with the photo-added confirmation rather than the
restart message, keeps the attachment-collection state rather than
resetting to the conversation end, and mutates the stale draft by storing
the photo. -/
theorem c7_inactive_not_rejected_counterexample :
    ((receive_answer_files
        { conversation_active := false, new_question := some "Q",
          data_type := some "guide" }
        ⟨[], []⟩ (Msg.photo ["p1"] none none)).replies ≠ [Reply.restartFlow])
    ∧ (receive_answer_files
        { conversation_active := false, new_question := some "Q",
          data_type := some "guide" }
        ⟨[], []⟩ (Msg.photo ["p1"] none none)).next ≠ ConvState.END
    ∧ (receive_answer_files
        { conversation_active := false, new_question := some "Q",
          data_type := some "guide" }
        ⟨[], []⟩ (Msg.photo ["p1"] none none)).ud.photos = ["p1"] := by
  refine ⟨?_, ?_, ?_⟩ <;> decide

/-- **C7 (amended).** What does hold for the add-flow states: no event
delivered while `active = false` ever mutates a Collection — the photo
and document branches of `receive_answer_files` touch only the session,
its sentinel branch is unreachable for text under the registered dispatch,
and `receive_answer` rejects immediately — and every message routed to
`receive_answer` (all messages in the ANSWER states, text in the
attachment states) is rejected with the restart reply and a session reset.
But not every handler rejects: `receive_answer_files` has no
`conversation_active` guard (see the counterexample). -/
theorem c7_inactive_no_collection_mutation (s : SysState) (e : Event)
    (hconv : s.conv = ConvState.GUIDE_ANSWER ∨ s.conv = ConvState.TEMPLATE_ANSWER
      ∨ s.conv = ConvState.GUIDE_ANSWER_PHOTOS ∨ s.conv = ConvState.TEMPLATE_ANSWER_PHOTOS)
    (hact : s.ud.conversation_active = false) :
    (stepSys s e).store = s.store
    ∧ ∀ (m : Msg) (store : Store),
        receive_answer s.ud store m =
          { ud := clearedUD "INVALID_ANSWER", store := store, next := ConvState.END
            replies := [Reply.restartFlow] } := by
  obtain ⟨c, u, st⟩ := s
  simp only at hconv hact
  refine ⟨?_, fun m store => receive_answer_inactive u store m hact⟩
  cases e with
  | timer =>
    by_cases ht : u.timeout_task <;> simp [stepSys, ht]
  | msg m =>
    have hviaAnswer : ∀ (c0 : ConvState),
        (stepSys ⟨c0, u, st⟩ (Event.msg m)
          = { conv := (receive_answer u st m).next, ud := (receive_answer u st m).ud,
              store := (receive_answer u st m).store }) →
        (stepSys ⟨c0, u, st⟩ (Event.msg m)).store = st := by
      intro c0 hstep
      rw [hstep]
      rw [receive_answer_inactive u st m hact]
    have hviaFiles : ∀ (c0 : ConvState), (∀ str, m ≠ Msg.text str) →
        (stepSys ⟨c0, u, st⟩ (Event.msg m)
          = { conv := (receive_answer_files u st m).next,
              ud := (receive_answer_files u st m).ud,
              store := (receive_answer_files u st m).store }) →
        (stepSys ⟨c0, u, st⟩ (Event.msg m)).store = st := by
      intro c0 hnt hstep
      rw [hstep]
      exact receive_answer_files_store_nontext u st m hnt
    rcases hconv with h | h | h | h <;> subst h
    · exact hviaAnswer _ rfl
    · exact hviaAnswer _ rfl
    · cases m with
      | text str => exact hviaAnswer _ rfl
      | photo sizes mgid caption => exact hviaFiles _ (by intro str hc; cases hc) rfl
      | doc fileId mime size caption => exact hviaFiles _ (by intro str hc; cases hc) rfl
    · cases m with
      | text str => exact hviaAnswer _ rfl
      | photo sizes mgid caption => exact hviaFiles _ (by intro str hc; cases hc) rfl
      | doc fileId mime size caption => exact hviaFiles _ (by intro str hc; cases hc) rfl

/-- Witness for **C7 (amended)**: an inactive session in the guide
attachment state receiving a stray photo — the store is untouched and
`receive_answer` would reject. -/
theorem c7_inactive_no_collection_mutation_witness :
    ((⟨ConvState.GUIDE_ANSWER_PHOTOS,
        { conversation_active := false, data_type := some "guide" },
        ⟨[{ id := 1, question := "q", answer := "a", photos := [], documents := [] }], []⟩⟩
        : SysState).ud.conversation_active = false)
    ∧ ((stepSys
          ⟨ConvState.GUIDE_ANSWER_PHOTOS,
           { conversation_active := false, data_type := some "guide" },
           ⟨[{ id := 1, question := "q", answer := "a", photos := [], documents := [] }], []⟩⟩
          (Event.msg (Msg.photo ["p1"] none none))).store
        = (⟨ConvState.GUIDE_ANSWER_PHOTOS,
            { conversation_active := false, data_type := some "guide" },
            ⟨[{ id := 1, question := "q", answer := "a", photos := [], documents := [] }], []⟩⟩
            : SysState).store
      ∧ ∀ (m : Msg) (store : Store),
          receive_answer
            (⟨ConvState.GUIDE_ANSWER_PHOTOS,
              { conversation_active := false, data_type := some "guide" },
              ⟨[{ id := 1, question := "q", answer := "a", photos := [], documents := [] }],
               []⟩⟩ : SysState).ud store m =
            { ud := clearedUD "INVALID_ANSWER", store := store, next := ConvState.END
              replies := [Reply.restartFlow] }) :=
  ⟨rfl, c7_inactive_no_collection_mutation
    ⟨ConvState.GUIDE_ANSWER_PHOTOS,
     { conversation_active := false, data_type := some "guide" },
     ⟨[{ id := 1, question := "q", answer := "a", photos := [], documents := [] }], []⟩⟩
    (Event.msg (Msg.photo ["p1"] none none))
    (Or.inr (Or.inr (Or.inl rfl))) rfl⟩

/-- **C8 counterexample.** An invalid document (MIME `text/plain`, far
outside the allowed set) arriving while `photos + documents` already
equals the album cap does *not* leave the draft unchanged: the cap branch
runs before document validation and flushes the pending album photo into
the draft (9 photos + 1 document + 1 pending → 10 photos), and the reply
is the cap message, not the document-type rejection. -/
theorem c8_invalid_doc_counterexample :
    ((receive_answer_files
        { conversation_active := true, new_question := some "Q",
          data_type := some "guide",
          photos := ["a1", "a2", "a3", "a4", "a5", "a6", "a7", "a8", "a9"],
          documents := ["d1"], pending_photos := ["pA"] }
        ⟨[], []⟩ (Msg.doc "dX" "text/plain" 5 none)).ud.photos
      ≠ ["a1", "a2", "a3", "a4", "a5", "a6", "a7", "a8", "a9"])
    ∧ (receive_answer_files
        { conversation_active := true, new_question := some "Q",
          data_type := some "guide",
          photos := ["a1", "a2", "a3", "a4", "a5", "a6", "a7", "a8", "a9"],
          documents := ["d1"], pending_photos := ["pA"] }
        ⟨[], []⟩ (Msg.doc "dX" "text/plain" 5 none)).replies ≠ [Reply.docBadType]
    ∧ (receive_answer_files
        { conversation_active := true, new_question := some "Q",
          data_type := some "guide",
          photos := ["a1", "a2", "a3", "a4", "a5", "a6", "a7", "a8", "a9"],
          documents := ["d1"], pending_photos := ["pA"] }
        ⟨[], []⟩ (Msg.doc "dX" "text/plain" 5 none)).ud.photos.length = 10 := by
  refine ⟨?_, ?_, ?_⟩ <;> decide

/-- **C8 (amended).** Below the album cap the claim holds exactly: a
document whose MIME type is outside the allowed set or whose size exceeds
20 MB is rejected by `receive_answer_files` with the corresponding error
reply, the session is left entirely unchanged (question, answer, photos,
documents, pending album buffer — the whole session record), the
conversation stays in the attachment-collection state and no commit
happens.  When `photos + documents` has already reached the cap, the cap
branch answers first and flushes pending album photos, changing the draft
(see the counterexample). -/
theorem c8_invalid_doc_rejected_below_cap (ud : UserData) (store : Store)
    (fid mime : String) (size : Nat) (cap : Option String) (dt : String)
    (hdt : ud.data_type = some dt)
    (hcap : ud.photos.length + ud.documents.length < MAX_MEDIA_PER_ALBUM)
    (hbad : mime ∉ allowedMimes ∨ maxDocSize < size) :
    (receive_answer_files ud store (Msg.doc fid mime size cap)).ud = ud
    ∧ (receive_answer_files ud store (Msg.doc fid mime size cap)).store = store
    ∧ (receive_answer_files ud store (Msg.doc fid mime size cap)).next
        = answerPhotosState dt
    ∧ ((receive_answer_files ud store (Msg.doc fid mime size cap)).replies
          = [Reply.docBadType]
        ∨ (receive_answer_files ud store (Msg.doc fid mime size cap)).replies
          = [Reply.docTooBig]) := by
  have hcap' : ¬(ud.photos.length + ud.documents.length ≥ MAX_MEDIA_PER_ALBUM) := by
    omega
  unfold receive_answer_files
  by_cases hmime : mime ∈ allowedMimes
  · have hsize : size > maxDocSize := by
      rcases hbad with h | h
      · exact absurd hmime h
      · exact h
    simp [hcap', hmime, hsize, answerPhotosState, hdt]
  · simp [hcap', hmime, answerPhotosState, hdt]

/-- Witness for **C8 (amended)**: an oversize PDF against a draft holding
one photo. -/
theorem c8_invalid_doc_rejected_below_cap_witness :
    (({ conversation_active := true, new_question := some "Q",
        data_type := some "guide", photos := ["a1"] } : UserData).photos.length
      + ({ conversation_active := true, new_question := some "Q",
           data_type := some "guide", photos := ["a1"] } : UserData).documents.length
      < MAX_MEDIA_PER_ALBUM)
    ∧ maxDocSize < 30 * 1024 * 1024
    ∧ ((receive_answer_files
          { conversation_active := true, new_question := some "Q",
            data_type := some "guide", photos := ["a1"] }
          ⟨[], []⟩ (Msg.doc "d1" "application/pdf" (30 * 1024 * 1024) none)).ud
        = { conversation_active := true, new_question := some "Q",
            data_type := some "guide", photos := ["a1"] }
      ∧ (receive_answer_files
          { conversation_active := true, new_question := some "Q",
            data_type := some "guide", photos := ["a1"] }
          ⟨[], []⟩ (Msg.doc "d1" "application/pdf" (30 * 1024 * 1024) none)).store
          = ⟨[], []⟩
      ∧ (receive_answer_files
          { conversation_active := true, new_question := some "Q",
            data_type := some "guide", photos := ["a1"] }
          ⟨[], []⟩ (Msg.doc "d1" "application/pdf" (30 * 1024 * 1024) none)).next
          = answerPhotosState "guide"
      ∧ ((receive_answer_files
            { conversation_active := true, new_question := some "Q",
              data_type := some "guide", photos := ["a1"] }
            ⟨[], []⟩ (Msg.doc "d1" "application/pdf" (30 * 1024 * 1024) none)).replies
            = [Reply.docBadType]
          ∨ (receive_answer_files
              { conversation_active := true, new_question := some "Q",
                data_type := some "guide", photos := ["a1"] }
              ⟨[], []⟩ (Msg.doc "d1" "application/pdf" (30 * 1024 * 1024) none)).replies
            = [Reply.docTooBig])) :=
  ⟨by decide, by decide,
   c8_invalid_doc_rejected_below_cap
     { conversation_active := true, new_question := some "Q",
       data_type := some "guide", photos := ["a1"] }
     ⟨[], []⟩ "d1" "application/pdf" (30 * 1024 * 1024) none "guide" rfl (by decide)
     (Or.inr (by decide))⟩

theorem find?_updateFirst_decomp (qid : Nat) (l : List Entry) (a : Entry)
    (hfind : l.find? (fun q => q.id == qid) = some a) :
    ∃ pre post, l = pre ++ a :: post ∧ (∀ x ∈ pre, x.id ≠ qid)
      ∧ ∀ f : Entry → Entry, updateFirstById qid f l = pre ++ f a :: post := by
  induction l with
  | nil => simp [List.find?] at hfind
  | cons h t ih =>
    rw [List.find?_cons] at hfind
    by_cases hid : h.id = qid
    · have hb : (h.id == qid) = true := by simp [hid]
      rw [hb] at hfind
      have ha : h = a := by simpa using hfind
      subst ha
      exact ⟨[], t, by simp, by simp, fun f => by simp [updateFirstById, hid]⟩
    · have hb : (h.id == qid) = false := by simp [hid]
      rw [hb] at hfind
      have hfind' : List.find? (fun q => q.id == qid) t = some a := by
        simpa using hfind
      obtain ⟨pre, post, hsplit, hpre, hupd⟩ := ih hfind'
      refine ⟨h :: pre, post, by simp [hsplit], ?_, ?_⟩
      · intro x hx
        rcases List.mem_cons.mp hx with hxh | hxp
        · exact hxh ▸ hid
        · exact hpre x hxp
      · intro f
        simp [updateFirstById, hid, hupd f]

theorem receive_edit_value_photo_field (ud : UserData) (store : Store) (dt : String)
    (qid : Nat) (it : Entry)
    (hdt : ud.data_type = some dt) (hdtv : dt = "guide" ∨ dt = "template")
    (hef : ud.edit_field = some ("edit_" ++ dt ++ "_field_photo"))
    (hqid : ud.edit_question_id = some qid)
    (hfind : (load_data dt store).find? (fun q => q.id == qid) = some it)
    (sizes : List String) (mgid : Option Nat) (cap : Option String) (hsz : sizes ≠ []) :
    receive_edit_value ud store (Msg.photo sizes mgid cap)
      = { ud := clearedUD (upperDT dt ++ "_EDITED")
          store := save_data dt (updateFirstById qid
              (fun x => { x with photos := sizes, documents := [] })
              (load_data dt store)) store
          next := ConvState.END
          replies := [Reply.valueEdited] } := by
  have hq : ¬("edit_" ++ dt ++ "_field_photo" = "edit_" ++ dt ++ "_field_question") := by
    rcases hdtv with h | h <;> subst h <;> decide
  have hans : ¬("edit_" ++ dt ++ "_field_photo" = "edit_" ++ dt ++ "_field_answer") := by
    rcases hdtv with h | h <;> subst h <;> decide
  unfold receive_edit_value
  rw [hef, hqid]
  simp only [hdt, Option.getD_some, hfind]
  rw [if_neg hq, if_neg hans]
  simp [hsz]

/-- **C10 counterexample.** The document half of the claim describes dead
code: in the `*_EDIT_VALUE` states the registered handlers send only text
and photo messages to `receive_edit_value`; a document message matches
`~(Filters.text | Filters.photo) & ~Filters.command` and is routed to
`handle_invalid_input`.  Concretely: with the photo field selected on
entry 1, sending a perfectly valid small PDF leaves the collection
untouched (no `documents` replacement, no `photos` reset), clears the
session to the invalid-input marker and ends the conversation. -/
theorem c10_edit_doc_dead_code_counterexample :
    ((stepSys
        ⟨ConvState.GUIDE_EDIT_VALUE,
         { data_type := some "guide", edit_field := some "edit_guide_field_photo",
           edit_question_id := some 1 },
         ⟨[{ id := 1, question := "q", answer := "a", photos := ["old"],
             documents := [] }], []⟩⟩
        (Event.msg (Msg.doc "d1" "application/pdf" 5 none))).store
      = ⟨[{ id := 1, question := "q", answer := "a", photos := ["old"],
            documents := [] }], []⟩)
    ∧ (stepSys
        ⟨ConvState.GUIDE_EDIT_VALUE,
         { data_type := some "guide", edit_field := some "edit_guide_field_photo",
           edit_question_id := some 1 },
         ⟨[{ id := 1, question := "q", answer := "a", photos := ["old"],
             documents := [] }], []⟩⟩
        (Event.msg (Msg.doc "d1" "application/pdf" 5 none))).ud
      = clearedUD "INVALID_INPUT"
    ∧ (stepSys
        ⟨ConvState.GUIDE_EDIT_VALUE,
         { data_type := some "guide", edit_field := some "edit_guide_field_photo",
           edit_question_id := some 1 },
         ⟨[{ id := 1, question := "q", answer := "a", photos := ["old"],
             documents := [] }], []⟩⟩
        (Event.msg (Msg.doc "d1" "application/pdf" 5 none))).conv
      = ConvState.END := by
  refine ⟨?_, ?_, ?_⟩ <;> decide

/-- **C10 (amended).** In the edit flow with the photo field selected and
the target entry present, the reachable half of the claim holds: a photo
message delivered in an `*_EDIT_VALUE` state is dispatched to
`receive_edit_value`, which replaces the targeted entry's `photos` with
the file ids of *every* size variant of that single message (one per
resolution, not just the largest), unconditionally resets its `documents`
to `[]`, saves the collection and ends the conversation; only the first
entry with the selected id is touched, everything before and after it is
kept verbatim.  The document half of the original claim never happens: a
document message in those states is dispatched to `handle_invalid_input`
— the session is reset, the conversation ends and the store is untouched
(the document branch of `receive_edit_value` is dead code under the
registered dispatch). -/
theorem c10_edit_photo_replaces_doc_rejected (ud : UserData) (store : Store) (dt : String)
    (qid : Nat) (it : Entry)
    (hdt : ud.data_type = some dt) (hdtv : dt = "guide" ∨ dt = "template")
    (hef : ud.edit_field = some ("edit_" ++ dt ++ "_field_photo"))
    (hqid : ud.edit_question_id = some qid)
    (hfind : (load_data dt store).find? (fun q => q.id == qid) = some it) :
    (∀ conv : ConvState,
      (conv = ConvState.GUIDE_EDIT_VALUE ∨ conv = ConvState.TEMPLATE_EDIT_VALUE) →
      (∀ (sizes : List String) (mgid : Option Nat) (cap : Option String), sizes ≠ [] →
        stepSys ⟨conv, ud, store⟩ (Event.msg (Msg.photo sizes mgid cap))
          = ⟨ConvState.END, clearedUD (upperDT dt ++ "_EDITED"),
             save_data dt (updateFirstById qid
               (fun x => { x with photos := sizes, documents := [] })
               (load_data dt store)) store⟩)
      ∧ ∀ (fid mime : String) (size : Nat) (cap : Option String),
          stepSys ⟨conv, ud, store⟩ (Event.msg (Msg.doc fid mime size cap))
            = ⟨ConvState.END, clearedUD "INVALID_INPUT", store⟩)
    ∧ ∃ pre post, load_data dt store = pre ++ it :: post
        ∧ (∀ x ∈ pre, x.id ≠ qid)
        ∧ ∀ f : Entry → Entry,
            updateFirstById qid f (load_data dt store) = pre ++ f it :: post := by
  refine ⟨?_, find?_updateFirst_decomp qid (load_data dt store) it hfind⟩
  intro conv hconv
  constructor
  · intro sizes mgid cap hsz
    have ho := receive_edit_value_photo_field ud store dt qid it hdt hdtv hef hqid hfind
      sizes mgid cap hsz
    rcases hconv with h | h <;> subst h
    · show ({ conv := (receive_edit_value ud store (Msg.photo sizes mgid cap)).next
              ud := (receive_edit_value ud store (Msg.photo sizes mgid cap)).ud
              store := (receive_edit_value ud store (Msg.photo sizes mgid cap)).store }
            : SysState) = _
      rw [ho]
    · show ({ conv := (receive_edit_value ud store (Msg.photo sizes mgid cap)).next
              ud := (receive_edit_value ud store (Msg.photo sizes mgid cap)).ud
              store := (receive_edit_value ud store (Msg.photo sizes mgid cap)).store }
            : SysState) = _
      rw [ho]
  · intro fid mime size cap
    rcases hconv with h | h <;> subst h <;> rfl

/-- Witness for **C10 (amended)**: editing entry 2 of a two-entry guide
from either edit-value state; a three-resolution photo message commits
the replacement, a valid small PDF is rejected by the dispatch. -/
theorem c10_edit_photo_replaces_doc_rejected_witness :
    ((load_data "guide"
        ⟨[{ id := 1, question := "q1", answer := "a1", photos := ["old1"],
            documents := [] },
          { id := 2, question := "q2", answer := "a2", photos := ["old2"],
            documents := ["oldDoc"] }], []⟩).find? (fun q => q.id == 2)
      = some { id := 2, question := "q2", answer := "a2", photos := ["old2"],
               documents := ["oldDoc"] })
    ∧ ((∀ conv : ConvState,
        (conv = ConvState.GUIDE_EDIT_VALUE ∨ conv = ConvState.TEMPLATE_EDIT_VALUE) →
        (∀ (sizes : List String) (mgid : Option Nat) (cap : Option String), sizes ≠ [] →
          stepSys
            ⟨conv,
             { data_type := some "guide", edit_field := some "edit_guide_field_photo",
               edit_question_id := some 2 },
             ⟨[{ id := 1, question := "q1", answer := "a1", photos := ["old1"],
                 documents := [] },
               { id := 2, question := "q2", answer := "a2", photos := ["old2"],
                 documents := ["oldDoc"] }], []⟩⟩
            (Event.msg (Msg.photo sizes mgid cap))
            = ⟨ConvState.END, clearedUD (upperDT "guide" ++ "_EDITED"),
               save_data "guide" (updateFirstById 2
                 (fun x => { x with photos := sizes, documents := [] })
                 (load_data "guide"
                   ⟨[{ id := 1, question := "q1", answer := "a1", photos := ["old1"],
                       documents := [] },
                     { id := 2, question := "q2", answer := "a2", photos := ["old2"],
                       documents := ["oldDoc"] }], []⟩))
                 ⟨[{ id := 1, question := "q1", answer := "a1", photos := ["old1"],
                     documents := [] },
                   { id := 2, question := "q2", answer := "a2", photos := ["old2"],
                     documents := ["oldDoc"] }], []⟩⟩)
        ∧ ∀ (fid mime : String) (size : Nat) (cap : Option String),
            stepSys
              ⟨conv,
               { data_type := some "guide", edit_field := some "edit_guide_field_photo",
                 edit_question_id := some 2 },
               ⟨[{ id := 1, question := "q1", answer := "a1", photos := ["old1"],
                   documents := [] },
                 { id := 2, question := "q2", answer := "a2", photos := ["old2"],
                   documents := ["oldDoc"] }], []⟩⟩
              (Event.msg (Msg.doc fid mime size cap))
              = ⟨ConvState.END, clearedUD "INVALID_INPUT",
                 ⟨[{ id := 1, question := "q1", answer := "a1", photos := ["old1"],
                     documents := [] },
                   { id := 2, question := "q2", answer := "a2", photos := ["old2"],
                     documents := ["oldDoc"] }], []⟩⟩)
      ∧ ∃ pre post,
          load_data "guide"
            ⟨[{ id := 1, question := "q1", answer := "a1", photos := ["old1"],
                documents := [] },
              { id := 2, question := "q2", answer := "a2", photos := ["old2"],
                documents := ["oldDoc"] }], []⟩ = pre
            ++ { id := 2, question := "q2", answer := "a2", photos := ["old2"],
                 documents := ["oldDoc"] } :: post
          ∧ (∀ x ∈ pre, x.id ≠ 2)
          ∧ ∀ f : Entry → Entry,
              updateFirstById 2 f
                (load_data "guide"
                  ⟨[{ id := 1, question := "q1", answer := "a1", photos := ["old1"],
                      documents := [] },
                    { id := 2, question := "q2", answer := "a2", photos := ["old2"],
                      documents := ["oldDoc"] }], []⟩)
                = pre ++ f { id := 2, question := "q2", answer := "a2",
                             photos := ["old2"], documents := ["oldDoc"] } :: post) :=
  ⟨by decide, c10_edit_photo_replaces_doc_rejected
    { data_type := some "guide", edit_field := some "edit_guide_field_photo",
      edit_question_id := some 2 }
    ⟨[{ id := 1, question := "q1", answer := "a1", photos := ["old1"], documents := [] },
      { id := 2, question := "q2", answer := "a2", photos := ["old2"],
        documents := ["oldDoc"] }], []⟩
    "guide" 2
    { id := 2, question := "q2", answer := "a2", photos := ["old2"],
      documents := ["oldDoc"] }
    rfl (Or.inl rfl) rfl rfl (by decide)⟩
